import Mathlib

/-!
Verification development for the gba_mobile adapter driver.

The definitions below are a shallow embedding of the link transport and
session state machine: the byte-level packet codec
(src/gba_mobile/src/engine/request/packet/) and the driver facade
(src/gba_mobile/src/driver/).  Machine integers are embedded as Nat with
explicit reduction modulo 2^16 where the source relies on u16 wrapping
arithmetic; u8 values are Nat with boundedness hypotheses where relevant.
Volatile hardware reads are passed as explicit inputs, and volatile hardware
writes are returned as explicit outputs.
-/

/-- Command is the closed set of protocol command IDs, from
src/gba_mobile/src/engine/command/mod.rs (the driver-side command set is the
same wire dictionary). -/
inductive Cmd
  | empty
  | beginSession
  | endSession
  | dialTelephone
  | hangUpTelephone
  | waitForTelephoneCall
  | transferData
  | reset
  | telephoneStatus
  | sio32Mode
  | readConfigurationData
  | writeConfigurationData
  | connectionClosed
  | ispLogin
  | ispLogout
  | openTcpConnection
  | closeTcpConnection
  | openUdpConnection
  | closeUdpConnection
  | dnsQuery
  | firmwareVersion
  | commandError
  | notSupportedError
  | malformedError
  | internalError
  deriving DecidableEq, Repr

/-- Wire discriminant of each command, the repr(u8) values of the Command
enum. -/
def Cmd.toByte : Cmd → Nat
  | .empty => 0x0f
  | .beginSession => 0x10
  | .endSession => 0x11
  | .dialTelephone => 0x12
  | .hangUpTelephone => 0x13
  | .waitForTelephoneCall => 0x14
  | .transferData => 0x15
  | .reset => 0x16
  | .telephoneStatus => 0x17
  | .sio32Mode => 0x18
  | .readConfigurationData => 0x19
  | .writeConfigurationData => 0x1a
  | .connectionClosed => 0x1f
  | .ispLogin => 0x21
  | .ispLogout => 0x22
  | .openTcpConnection => 0x23
  | .closeTcpConnection => 0x24
  | .openUdpConnection => 0x25
  | .closeUdpConnection => 0x26
  | .dnsQuery => 0x28
  | .firmwareVersion => 0x3f
  | .commandError => 0x6e
  | .notSupportedError => 0x70
  | .malformedError => 0x71
  | .internalError => 0x72

/-- TryFrom of u8 for Command; an unrecognized byte is the Unknown error
carrying the raw byte. -/
def Cmd.tryFrom (byte : Nat) : Except Nat Cmd :=
  if byte = 0x0f then .ok .empty
  else if byte = 0x10 then .ok .beginSession
  else if byte = 0x11 then .ok .endSession
  else if byte = 0x12 then .ok .dialTelephone
  else if byte = 0x13 then .ok .hangUpTelephone
  else if byte = 0x14 then .ok .waitForTelephoneCall
  else if byte = 0x15 then .ok .transferData
  else if byte = 0x16 then .ok .reset
  else if byte = 0x17 then .ok .telephoneStatus
  else if byte = 0x18 then .ok .sio32Mode
  else if byte = 0x19 then .ok .readConfigurationData
  else if byte = 0x1a then .ok .writeConfigurationData
  else if byte = 0x1f then .ok .connectionClosed
  else if byte = 0x21 then .ok .ispLogin
  else if byte = 0x22 then .ok .ispLogout
  else if byte = 0x23 then .ok .openTcpConnection
  else if byte = 0x24 then .ok .closeTcpConnection
  else if byte = 0x25 then .ok .openUdpConnection
  else if byte = 0x26 then .ok .closeUdpConnection
  else if byte = 0x28 then .ok .dnsQuery
  else if byte = 0x3f then .ok .firmwareVersion
  else if byte = 0x6e then .ok .commandError
  else if byte = 0x70 then .ok .notSupportedError
  else if byte = 0x71 then .ok .malformedError
  else if byte = 0x72 then .ok .internalError
  else .error byte

/-- Adapter identity, from src/gba_mobile/src/driver/adapter.rs. -/
inductive Adapter
  | blue
  | yellow
  | green
  | red
  deriving DecidableEq, Repr

/-- Dial byte of each adapter, used as the first payload byte when dialing. -/
def Adapter.dialByte : Adapter → Nat
  | .blue => 0
  | .yellow => 2
  | .green => 1
  | .red => 1

/-- Serial transfer width, from src/gba_mobile/src/mmio/serial.rs. -/
inductive TransferLength
  | eightBit
  | thirtyTwoBit
  deriving DecidableEq, Repr

/-- Hardware timer selection, from src/gba_mobile/src/timer.rs. -/
inductive HwTimer
  | t0
  | t1
  | t2
  | t3
  deriving DecidableEq, Repr

/-- Wait-for-telephone-call command error codes, from
src/gba_mobile/src/driver/command/error/wait_for_telephone_call.rs. -/
inductive WftcError
  | noCallReceived
  | alreadyCalling
  | internalError
  deriving DecidableEq, Repr

/-- Modelled from the spec: the per-command adapter error dictionary
(driver/command/error/mod.rs is absent from the sources; only some payload
enums are present).  The spec describes per-command error code tables, each a
(command_id, error_byte) pair decoded via the wire.  The variant for
WaitForTelephoneCall carries the error enum that is present in the sources;
the other variants abstract their per-command error table to the decoded
wire byte. -/
inductive CmdError
  | beginSession (error : Nat)
  | endSession (error : Nat)
  | dialTelephone (error : Nat)
  | hangUpTelephone (error : Nat)
  | waitForTelephoneCall (error : WftcError)
  | transferData (error : Nat)
  | reset (error : Nat)
  | sio32Mode (error : Nat)
  | readConfigurationData (error : Nat)
  | writeConfigurationData (error : Nat)
  | ispLogin (error : Nat)
  | ispLogout (error : Nat)
  | openTcpConnection (error : Nat)
  | closeTcpConnection (error : Nat)
  | openUdpConnection (error : Nat)
  | closeUdpConnection (error : Nat)
  | dnsQuery (error : Nat)
  deriving DecidableEq, Repr

/-- Begin-session data sink states, from
src/gba_mobile/src/driver/sink/data/begin_session.rs: one state per byte of
the 8-byte NINTENDO handshake. -/
inductive BeginSessionData
  | byte0
  | byte1
  | byte2
  | byte3
  | byte4
  | byte5
  | byte6
  | byte7
  deriving DecidableEq, Repr

/-- Command-error data sink states, from
src/gba_mobile/src/driver/sink/data/command_error.rs: first the echoed
command byte, then the error byte. -/
inductive CommandErrorData
  | command
  | status (byte : Nat)
  deriving DecidableEq, Repr

/-- Command sink (first stage of the staged response parser), from
src/gba_mobile/src/driver/sink/command.rs (the engine snapshot carries the
first two variants only). -/
inductive SinkCommand
  | beginSession
  | enableSio32
  | waitForCall
  | call
  | reset
  | endSession
  deriving DecidableEq, Repr

/-- Length sink states, from src/gba_mobile/src/driver/sink/length.rs. -/
inductive SinkLength
  | beginSession
  | beginSessionCommandError
  | enableSio32 (enabled : Bool)
  | enableSio32CommandError
  | waitForCall
  | waitForCallCommandError
  | endSession
  | endSessionCommandError
  deriving DecidableEq, Repr

/-- Data sink states, from src/gba_mobile/src/driver/sink/data/mod.rs. -/
inductive SinkData
  | beginSession (data : BeginSessionData)
  | beginSessionCommandError (data : CommandErrorData)
  | enableSio32CommandError (data : CommandErrorData)
  | waitForCallCommandError (data : CommandErrorData)
  | callCommandError (data : CommandErrorData)
  | endSessionCommandError (data : CommandErrorData)
  deriving DecidableEq, Repr

/-- Parsed sink results, from src/gba_mobile/src/driver/sink/parsed.rs. -/
inductive SinkParsed
  | beginSession
  | beginSessionCommandError (error : CmdError)
  | enableSio32 (enabled : Bool)
  | enableSio32CommandError (error : CmdError)
  | waitForCall
  | waitForCallCommandError (error : CmdError)
  | call
  | callCommandError (error : CmdError)
  | reset
  | resetCommandError (error : CmdError)
  | endSession
  | endSessionCommandError (error : CmdError)
  deriving DecidableEq, Repr

/-- Command a parsed sink corresponds to, from Parsed::command in
src/gba_mobile/src/driver/sink/parsed.rs. -/
def SinkParsed.command : SinkParsed → Cmd
  | .beginSession => .beginSession
  | .beginSessionCommandError _ => .commandError
  | .enableSio32 true => .sio32Mode
  | .enableSio32 false => .reset
  | .enableSio32CommandError _ => .commandError
  | .waitForCall => .waitForTelephoneCall
  | .waitForCallCommandError _ => .commandError
  | .call => .dialTelephone
  | .callCommandError _ => .commandError
  | .reset => .reset
  | .resetCommandError _ => .commandError
  | .endSession => .endSession
  | .endSessionCommandError _ => .commandError

/-- Revert a parsed result to the command sink that produced it, from
Parsed::revert in src/gba_mobile/src/driver/sink/parsed.rs. -/
def SinkParsed.revert : SinkParsed → SinkCommand
  | .beginSession => .beginSession
  | .beginSessionCommandError _ => .beginSession
  | .enableSio32 _ => .enableSio32
  | .enableSio32CommandError _ => .enableSio32
  | .waitForCall => .waitForCall
  | .waitForCallCommandError _ => .waitForCall
  | .call => .call
  | .callCommandError _ => .call
  | .reset => .reset
  | .resetCommandError _ => .reset
  | .endSession => .endSession
  | .endSessionCommandError _ => .endSession

/-- Command sink parse errors, from the Error enum of
src/gba_mobile/src/driver/sink/command.rs: each variant carries the
unexpected command that was received. -/
inductive SinkCommandError
  | beginSession (received : Cmd)
  | enableSio32 (received : Cmd)
  | waitForCall (received : Cmd)
  | call (received : Cmd)
  | reset (received : Cmd)
  | endSession (received : Cmd)
  deriving DecidableEq, Repr

/-- Length sink parse errors, from the Error enum of
src/gba_mobile/src/driver/sink/length.rs, carrying the received length. -/
inductive SinkLengthError
  | beginSession (length : Nat)
  | enableSio32 (length : Nat)
  | waitForCall (length : Nat)
  | endSession (length : Nat)
  | commandError (length : Nat)
  deriving DecidableEq, Repr

/-- Begin-session data parse error, from the Error struct of
src/gba_mobile/src/driver/sink/data/begin_session.rs. -/
structure BeginSessionDataError where
  byte : Nat
  index : Nat
  deriving DecidableEq, Repr

/-- Data sink parse errors, from the Error enum of
src/gba_mobile/src/driver/sink/data/mod.rs.  The command-error variant
carries the unknown (command byte, error byte) pair. -/
inductive SinkDataError
  | beginSession (error : BeginSessionDataError)
  | commandError (command : Nat) (error : Nat)
  deriving DecidableEq, Repr

/-- Source is the byte producer for one outbound command.  The packet codec
interacts with a Source only through command(), length(), get(index) and
sink(), so a Source is embedded as that interface
(src/gba_mobile/src/driver/source.rs and the engine snapshot in
src/gba_mobile/src/engine/source.rs; concrete sources are given below as
values of this interface). -/
structure Source where
  command : Cmd
  length : Nat
  get : Nat → Nat
  sink : SinkCommand

/-- Handshake payload for BeginSession: the 8 ASCII bytes of NINTENDO. -/
def HANDSHAKE : List Nat := [0x4e, 0x49, 0x4e, 0x54, 0x45, 0x4e, 0x44, 0x4f]

/-- Source::BeginSession, from src/gba_mobile/src/driver/source.rs: command
BeginSession, the 8 handshake bytes, out-of-range reads yield 0x00. -/
def Source.beginSession : Source where
  command := .beginSession
  length := 8
  get := fun index => HANDSHAKE.getD index 0x00
  sink := .beginSession

/-- Source::EnableSio32, from src/gba_mobile/src/driver/source.rs. -/
def Source.enableSio32 : Source where
  command := .sio32Mode
  length := 1
  get := fun _ => 0x01
  sink := .enableSio32

/-- Source::WaitForCall, from src/gba_mobile/src/driver/source.rs. -/
def Source.waitForCall : Source where
  command := .waitForTelephoneCall
  length := 0
  get := fun _ => 0x00
  sink := .waitForCall

/-- Source::Call, from src/gba_mobile/src/driver/source.rs: one byte for the
adapter dial byte followed by the phone number digits. -/
def Source.call (adapter : Adapter) (phoneNumber : List Nat) : Source where
  command := .dialTelephone
  length := 1 + phoneNumber.length
  get := fun index =>
    if index = 0 then adapter.dialByte else phoneNumber.getD (index - 1) 0x00
  sink := .call

/-- Source::EndSession, from src/gba_mobile/src/driver/source.rs. -/
def Source.endSession : Source where
  command := .endSession
  length := 0
  get := fun _ => 0x00
  sink := .endSession

/-- Eight-bit send steps, from
src/gba_mobile/src/engine/request/packet/send.rs. -/
inductive SendStep8
  | magicByte1
  | magicByte2
  | headerCommand
  | headerEmptyByte
  | headerLength1
  | headerLength2
  | data (index : Nat)
  | checksum1
  | checksum2
  | acknowledgementSignalDevice
  | acknowledgementSignalCommand
  deriving DecidableEq, Repr

/-- Thirty-two-bit send steps, from
src/gba_mobile/src/engine/request/packet/send.rs. -/
inductive SendStep32
  | magicByte
  | headerLength
  | data (index : Nat)
  | checksum
  | acknowledgementSignal
  deriving DecidableEq, Repr

/-- Send errors, from the Error enum of
src/gba_mobile/src/engine/request/packet/send.rs. -/
inductive SendError
  | unsupportedCommand (command : Cmd)
  | malformed
  | adapterInternalError
  deriving DecidableEq, Repr

/-- Receive errors, from the Error enum of
src/gba_mobile/src/engine/request/packet/receive.rs. -/
inductive ReceiveError
  | magicValue1 (byte : Nat)
  | magicValue2 (byte : Nat)
  | unknownCommand (byte : Nat)
  | unsupportedCommand (error : SinkCommandError)
  | unexpectedLength (error : SinkLengthError)
  | malformedData (error : SinkDataError)
  | checksum (calculated : Nat) (received : Nat)
  | unsupportedDevice (byte : Nat)
  | nonZeroAcknowledgementCommand (byte : Nat)
  deriving DecidableEq, Repr

/-- Command echoed while draining an errored receive, from Error::command in
src/gba_mobile/src/engine/request/packet/receive.rs. -/
def ReceiveError.command : ReceiveError → Cmd
  | .magicValue1 _ => .malformedError
  | .magicValue2 _ => .malformedError
  | .unknownCommand _ => .notSupportedError
  | .unsupportedCommand _ => .notSupportedError
  | .unexpectedLength _ => .malformedError
  | .malformedData _ => .malformedError
  | .checksum _ _ => .malformedError
  | .unsupportedDevice _ => .malformedError
  | .nonZeroAcknowledgementCommand _ => .malformedError

/-- Eight-bit receive steps, from
src/gba_mobile/src/engine/request/packet/receive.rs. -/
inductive ReceiveStep8
  | magicByte1 (sink : SinkCommand) (frame : Nat)
  | magicByte2 (sink : SinkCommand)
  | headerCommand (sink : SinkCommand)
  | headerEmptyByte (sink : SinkLength) (commandXor : Bool)
  | headerLength1 (sink : SinkLength) (commandXor : Bool)
  | headerLength2 (sink : SinkLength) (firstByte : Nat) (commandXor : Bool)
  | data (sink : SinkData) (commandXor : Bool)
  | checksum1 (result : SinkParsed) (commandXor : Bool)
  | checksum2 (result : SinkParsed) (firstByte : Nat) (commandXor : Bool)
  | acknowledgementSignalDevice (result : SinkParsed) (commandXor : Bool)
  | acknowledgementSignalCommand (result : SinkParsed) (adapter : Adapter)
      (commandXor : Bool)
  deriving DecidableEq, Repr

/-- Thirty-two-bit receive steps, from
src/gba_mobile/src/engine/request/packet/receive.rs. -/
inductive ReceiveStep32
  | magicByte (sink : SinkCommand) (frame : Nat)
  | headerLength (sink : SinkLength) (commandXor : Bool)
  | data (sink : SinkData) (commandXor : Bool)
  | checksum (result : SinkParsed) (commandXor : Bool)
  | acknowledgementSignal (result : SinkParsed) (commandXor : Bool)
  deriving DecidableEq, Repr

/-- Eight-bit receive error-drain steps, from
src/gba_mobile/src/engine/request/packet/receive.rs. -/
inductive ReceiveStep8Error
  | magicByte2 (sink : SinkCommand)
  | headerCommand (sink : SinkCommand)
  | headerEmptyByte (sink : SinkCommand)
  | headerLength1 (sink : SinkCommand)
  | headerLength2 (sink : SinkCommand) (firstByte : Nat)
  | data (sink : SinkCommand) (index : Nat) (length : Nat)
  | checksum1 (sink : SinkCommand)
  | checksum2 (sink : SinkCommand)
  | acknowledgementSignalDevice (sink : SinkCommand)
  | acknowledgementSignalCommand (sink : SinkCommand)
  deriving DecidableEq, Repr

/-- Thirty-two-bit receive error-drain steps, from
src/gba_mobile/src/engine/request/packet/receive.rs. -/
inductive ReceiveStep32Error
  | headerLength (sink : SinkCommand)
  | data (sink : SinkCommand) (index : Nat) (length : Nat)
  | checksum (sink : SinkCommand)
  | acknowledgementSignal (sink : SinkCommand)
  deriving DecidableEq, Repr

/-- Packet timeouts, from
src/gba_mobile/src/engine/request/packet/timeout.rs. -/
inductive PacketTimeout
  | serial
  | response
  deriving DecidableEq, Repr

/-- Packet errors, the Send/Receive wrapper used by Packet::pull
(src/gba_mobile/src/engine/request/packet/mod.rs constructs Error::Send and
Error::Receive; the error.rs file itself is absent from the sources). -/
inductive PacketError
  | send (error : SendError)
  | receive (error : ReceiveError)
  deriving DecidableEq, Repr

/-- The in-flight codec state, from the Packet enum of
src/gba_mobile/src/engine/request/packet/mod.rs. -/
inductive Packet
  | send8 (step : SendStep8) (source : Source) (checksum : Nat)
      (attempt : Nat) (frame : Nat)
  | send32 (step : SendStep32) (source : Source) (checksum : Nat)
      (attempt : Nat) (frame : Nat)
  | receive8 (step : ReceiveStep8) (checksum : Nat) (attempt : Nat)
      (frame : Nat)
  | receive32 (step : ReceiveStep32) (checksum : Nat) (attempt : Nat)
      (frame : Nat)
  | receive8Error (step : ReceiveStep8Error) (error : ReceiveError)
      (attempt : Nat) (frame : Nat)
  | receive32Error (step : ReceiveStep32Error) (error : ReceiveError)
      (attempt : Nat) (frame : Nat)

/-- Maximum number of attempts for one packet, from MAX_RETRIES in
src/gba_mobile/src/engine/request/packet/mod.rs. -/
def MAX_RETRIES : Nat := 5

/-- Frame budget before a serial timeout, from FRAMES_3_SECONDS in
src/gba_mobile/src/engine/request/mod.rs. -/
def FRAMES_3_SECONDS : Nat := 180

/-- Frame budget before a response timeout, from FRAMES_15_SECONDS in
src/gba_mobile/src/engine/request/packet/mod.rs. -/
def FRAMES_15_SECONDS : Nat := 900

/-- Packet::new, from src/gba_mobile/src/engine/request/packet/mod.rs. -/
def Packet.new (transferLength : TransferLength) (source : Source) : Packet :=
  match transferLength with
  | .eightBit => .send8 .magicByte1 source 0 0 0
  | .thirtyTwoBit => .send32 .magicByte source 0 0 0

/-- Packet::timeout, from src/gba_mobile/src/engine/request/packet/mod.rs:
increment the frame count (and, on the first response step, the response
frame count) and report a timeout once a budget is exceeded. -/
def Packet.timeout : Packet → Except PacketTimeout Packet
  | .send8 step source checksum attempt frame =>
    if frame > FRAMES_3_SECONDS then .error .serial
    else .ok (.send8 step source checksum attempt (frame + 1))
  | .send32 step source checksum attempt frame =>
    if frame > FRAMES_3_SECONDS then .error .serial
    else .ok (.send32 step source checksum attempt (frame + 1))
  | .receive8 step checksum attempt frame =>
    if frame > FRAMES_3_SECONDS then .error .serial
    else
      match step with
      | .magicByte1 sink stepFrame =>
        if stepFrame > FRAMES_15_SECONDS then .error .response
        else .ok (.receive8 (.magicByte1 sink (stepFrame + 1)) checksum attempt
          (frame + 1))
      | step => .ok (.receive8 step checksum attempt (frame + 1))
  | .receive32 step checksum attempt frame =>
    if frame > FRAMES_3_SECONDS then .error .serial
    else
      match step with
      | .magicByte sink stepFrame =>
        if stepFrame > FRAMES_15_SECONDS then .error .response
        else .ok (.receive32 (.magicByte sink (stepFrame + 1)) checksum attempt
          (frame + 1))
      | step => .ok (.receive32 step checksum attempt (frame + 1))
  | .receive8Error step error attempt frame =>
    if frame > FRAMES_3_SECONDS then .error .serial
    else .ok (.receive8Error step error attempt (frame + 1))
  | .receive32Error step error attempt frame =>
    if frame > FRAMES_3_SECONDS then .error .serial
    else .ok (.receive32Error step error attempt (frame + 1))

/-- Wrapping u16 addition, for the running checksum. -/
def add16 (a b : Nat) : Nat := (a + b) % 65536

/-- One hardware serial write: one byte in SIO8 mode, or one 32-bit word
(given by its four big-endian bytes) in SIO32 mode. -/
inductive SioOut
  | out8 (byte : Nat)
  | out32 (bytes : List Nat)
  deriving DecidableEq, Repr

/-- Byte pushed at each 8-bit send step together with the updated running
checksum, from the Send8 arm of Packet::push in
src/gba_mobile/src/engine/request/packet/mod.rs. -/
def push8 (step : SendStep8) (source : Source) (checksum : Nat) : Nat × Nat :=
  match step with
  | .magicByte1 => (0x99, checksum)
  | .magicByte2 => (0x66, checksum)
  | .headerCommand =>
    let byte := source.command.toByte
    (byte, add16 checksum byte)
  | .headerEmptyByte => (0x00, checksum)
  | .headerLength1 => (0x00, checksum)
  | .headerLength2 =>
    let byte := source.length
    (byte, add16 checksum byte)
  | .data index =>
    let byte := source.get index
    (byte, add16 checksum byte)
  | .checksum1 => (checksum / 256 % 256, checksum)
  | .checksum2 => (checksum % 256, checksum)
  | .acknowledgementSignalDevice => (0x81, checksum)
  | .acknowledgementSignalCommand => (0x00, checksum)

/-- Inner while loop of the 32-bit send data step: write up to 4 payload
bytes starting at the given index, adding each to the checksum, from the
Send32 Data arm of Packet::push in
src/gba_mobile/src/engine/request/packet/mod.rs.  The first argument is the
remaining capacity of the word (4 at the top of the loop), the second the
current offset. -/
def send32PackLoop (source : Source) (index : Nat) :
    Nat → Nat → Nat → List Nat × Nat
  | 0, _offset, checksum => ([], checksum)
  | rem + 1, offset, checksum =>
    if index + offset < source.length then
      let byte := source.get (index + offset)
      let (rest, checksum') :=
        send32PackLoop source index rem (offset + 1) (add16 checksum byte)
      (byte :: rest, checksum')
    else ([], checksum)

/-- Word pushed at a 32-bit send data step: up to 4 payload bytes, padded
with 0x00, with the checksum packed into the two trailing bytes when fewer
than 3 payload bytes were written, from the Send32 Data arm of Packet::push
in src/gba_mobile/src/engine/request/packet/mod.rs. -/
def send32DataWord (source : Source) (index checksum : Nat) :
    List Nat × Nat :=
  let (written, checksum') := send32PackLoop source index 4 0 checksum
  let offset := written.length
  if offset < 3 then
    ((written ++ List.replicate (4 - offset) 0x00).take 2
      ++ [checksum' / 256 % 256, checksum' % 256], checksum')
  else
    (written ++ List.replicate (4 - offset) 0x00, checksum')

/-- Word pushed at each 32-bit send step together with the updated running
checksum, from the Send32 arm of Packet::push in
src/gba_mobile/src/engine/request/packet/mod.rs. -/
def push32 (step : SendStep32) (source : Source) (checksum : Nat) :
    List Nat × Nat :=
  match step with
  | .magicByte =>
    let command := source.command.toByte
    ([0x99, 0x66, command, 0x00], add16 checksum command)
  | .headerLength =>
    let length := source.length
    let checksum1 := add16 checksum length
    if length = 0 then
      ([0x00, length, checksum1 / 256 % 256, checksum1 % 256], checksum1)
    else
      let data0 := source.get 0
      let data1 := source.get 1
      let checksum2 := add16 (add16 checksum1 data0) data1
      ([0x00, length, data0, data1], checksum2)
  | .data index => send32DataWord source index checksum
  | .checksum =>
    ([0x00, 0x00, checksum / 256 % 256, checksum % 256], checksum)
  | .acknowledgementSignal => ([0x81, 0x00, 0x00, 0x00], checksum)

/-- Byte pushed at each 8-bit receive step, from the Receive8 arm of
Packet::push in src/gba_mobile/src/engine/request/packet/mod.rs. -/
def pushReceive8 (step : ReceiveStep8) : Nat :=
  match step with
  | .acknowledgementSignalDevice _ _ => 0x81
  | .acknowledgementSignalCommand result _ commandXor =>
    if commandXor then result.command.toByte ||| 0x80 else result.command.toByte
  | _ => 0x4b

/-- Word pushed at each 32-bit receive step, from the Receive32 arm of
Packet::push in src/gba_mobile/src/engine/request/packet/mod.rs. -/
def pushReceive32 (step : ReceiveStep32) : List Nat :=
  match step with
  | .acknowledgementSignal result commandXor =>
    let commandByte :=
      if commandXor then result.command.toByte ||| 0x80 else result.command.toByte
    [0x81, commandByte, 0x00, 0x00]
  | _ => [0x4b, 0x4b, 0x4b, 0x4b]

/-- Byte pushed at each 8-bit receive error-drain step, from the
Receive8Error arm of Packet::push in
src/gba_mobile/src/engine/request/packet/mod.rs. -/
def pushReceive8Error (step : ReceiveStep8Error) (error : ReceiveError)
    (attempt : Nat) : Nat :=
  match step with
  | .acknowledgementSignalDevice _ => 0x81
  | .acknowledgementSignalCommand _ =>
    if attempt + 1 < MAX_RETRIES then error.command.toByte ||| 0x80
    else Cmd.empty.toByte ||| 0x80
  | _ => 0x4b

/-- Word pushed at each 32-bit receive error-drain step, from the
Receive32Error arm of Packet::push in
src/gba_mobile/src/engine/request/packet/mod.rs. -/
def pushReceive32Error (step : ReceiveStep32Error) (error : ReceiveError)
    (attempt : Nat) : List Nat :=
  match step with
  | .acknowledgementSignal _ =>
    let commandByte :=
      if attempt + 1 < MAX_RETRIES then error.command.toByte ||| 0x80
      else Cmd.empty.toByte ||| 0x80
    [0x81, commandByte, 0x00, 0x00]
  | _ => [0x4b, 0x4b, 0x4b, 0x4b]

/-- Packet::push, from src/gba_mobile/src/engine/request/packet/mod.rs: the
serial write performed for the current step, together with the packet after
its checksum mutation. -/
def Packet.push : Packet → SioOut × Packet
  | .send8 step source checksum attempt frame =>
    let (byte, checksum') := push8 step source checksum
    (.out8 byte, .send8 step source checksum' attempt frame)
  | .send32 step source checksum attempt frame =>
    let (bytes, checksum') := push32 step source checksum
    (.out32 bytes, .send32 step source checksum' attempt frame)
  | .receive8 step checksum attempt frame =>
    (.out8 (pushReceive8 step), .receive8 step checksum attempt frame)
  | .receive32 step checksum attempt frame =>
    (.out32 (pushReceive32 step), .receive32 step checksum attempt frame)
  | .receive8Error step error attempt frame =>
    (.out8 (pushReceive8Error step error attempt),
      .receive8Error step error attempt frame)
  | .receive32Error step error attempt frame =>
    (.out32 (pushReceive32Error step error attempt),
      .receive32Error step error attempt frame)

/-- Step-to-step transitions of the 8-bit send path on transfer-complete,
from the Send8 arm of Packet::pull in
src/gba_mobile/src/engine/request/packet/mod.rs (every arm except
AcknowledgementSignalCommand, which is pullSend8Ack below; those arms ignore
the received byte).  The dead self-loop on the final step keeps the function
total. -/
def advance8 (step : SendStep8) (source : Source) : SendStep8 :=
  match step with
  | .magicByte1 => .magicByte2
  | .magicByte2 => .headerCommand
  | .headerCommand => .headerEmptyByte
  | .headerEmptyByte => .headerLength1
  | .headerLength1 => .headerLength2
  | .headerLength2 => if source.length > 0 then .data 0 else .checksum1
  | .data index =>
    if source.length > index + 1 then .data (index + 1) else .checksum1
  | .checksum1 => .checksum2
  | .checksum2 => .acknowledgementSignalDevice
  | .acknowledgementSignalDevice => .acknowledgementSignalCommand
  | .acknowledgementSignalCommand => .acknowledgementSignalCommand

/-- The AcknowledgementSignalCommand arm of the Send8 case of Packet::pull,
from src/gba_mobile/src/engine/request/packet/mod.rs: decode the echoed
command (the adapter echoes the command ID XOR 0x80); a retryable adapter
error restarts the packet from scratch while fewer than MAX_RETRIES attempts
have completed, resolves fatally on the last attempt, and anything else
moves on to receiving the response. -/
def pullSend8Ack (source : Source) (attempt : Nat) (byte : Nat) :
    Except (PacketError ⊕ CmdError) Packet :=
  let newAttempt := attempt + 1
  match Cmd.tryFrom (byte ^^^ 0x80) with
  | .ok .notSupportedError =>
    if newAttempt < MAX_RETRIES then
      .ok (.send8 .magicByte1 source 0 newAttempt 0)
    else .error (.inl (.send (.unsupportedCommand source.command)))
  | .ok .malformedError =>
    if newAttempt < MAX_RETRIES then
      .ok (.send8 .magicByte1 source 0 newAttempt 0)
    else .error (.inl (.send .malformed))
  | .ok .internalError =>
    if newAttempt < MAX_RETRIES then
      .ok (.send8 .magicByte1 source 0 newAttempt 0)
    else .error (.inl (.send .adapterInternalError))
  | _ => .ok (.receive8 (.magicByte1 source.sink 0) 0 0 0)

/-- Step-to-step transitions of the 32-bit send path on transfer-complete,
from the Send32 arm of Packet::pull in
src/gba_mobile/src/engine/request/packet/mod.rs (every arm except
AcknowledgementSignal, which is pullSend32Ack below).  The dead self-loop on
the final step keeps the function total. -/
def advance32 (step : SendStep32) (source : Source) : SendStep32 :=
  match step with
  | .magicByte => .headerLength
  | .headerLength =>
    if source.length = 0 then .acknowledgementSignal
    else if source.length ≤ 2 then .checksum
    else .data 2
  | .data index =>
    if index + 2 ≥ source.length then .acknowledgementSignal
    else if index + 4 ≥ source.length then .checksum
    else .data (index + 4)
  | .checksum => .acknowledgementSignal
  | .acknowledgementSignal => .acknowledgementSignal

/-- The AcknowledgementSignal arm of the Send32 case of Packet::pull, from
src/gba_mobile/src/engine/request/packet/mod.rs; byte1 is the second
big-endian byte of the received word. -/
def pullSend32Ack (source : Source) (attempt : Nat) (byte1 : Nat) :
    Except (PacketError ⊕ CmdError) Packet :=
  let newAttempt := attempt + 1
  match Cmd.tryFrom (byte1 ^^^ 0x80) with
  | .ok .notSupportedError =>
    if newAttempt < MAX_RETRIES then
      .ok (.send32 .magicByte source 0 newAttempt 0)
    else .error (.inl (.send (.unsupportedCommand source.command)))
  | .ok .malformedError =>
    if newAttempt < MAX_RETRIES then
      .ok (.send32 .magicByte source 0 newAttempt 0)
    else .error (.inl (.send .malformed))
  | .ok .internalError =>
    if newAttempt < MAX_RETRIES then
      .ok (.send32 .magicByte source 0 newAttempt 0)
    else .error (.inl (.send .adapterInternalError))
  | _ => .ok (.receive32 (.magicByte source.sink 0) 0 0 0)

/-- The Receive8Error arm of Packet::pull, from
src/gba_mobile/src/engine/request/packet/mod.rs: drain through the framing
of the malformed packet, then either start a fresh receive attempt or
surface the recorded error once MAX_RETRIES attempts have completed. -/
def pullReceive8Error (step : ReceiveStep8Error) (error : ReceiveError)
    (attempt : Nat) (byte : Nat) :
    Except (PacketError ⊕ CmdError) (Option Packet) :=
  match step with
  | .magicByte2 sink =>
    .ok (some (.receive8Error (.headerCommand sink) error attempt 0))
  | .headerCommand sink =>
    .ok (some (.receive8Error (.headerEmptyByte sink) error attempt 0))
  | .headerEmptyByte sink =>
    .ok (some (.receive8Error (.headerLength1 sink) error attempt 0))
  | .headerLength1 sink =>
    .ok (some (.receive8Error (.headerLength2 sink byte) error attempt 0))
  | .headerLength2 sink firstByte =>
    let fullLength := (firstByte <<< 8) ||| byte
    if fullLength = 0 then
      .ok (some (.receive8Error (.checksum1 sink) error attempt 0))
    else
      .ok (some (.receive8Error (.data sink 0 fullLength) error attempt 0))
  | .data sink index length =>
    let nextIndex := index + 1
    if nextIndex < length then
      .ok (some (.receive8Error (.data sink nextIndex length) error attempt 0))
    else
      .ok (some (.receive8Error (.checksum1 sink) error attempt 0))
  | .checksum1 sink =>
    .ok (some (.receive8Error (.checksum2 sink) error attempt 0))
  | .checksum2 sink =>
    .ok (some (.receive8Error (.acknowledgementSignalDevice sink) error
      attempt 0))
  | .acknowledgementSignalDevice sink =>
    .ok (some (.receive8Error (.acknowledgementSignalCommand sink) error
      attempt 0))
  | .acknowledgementSignalCommand sink =>
    let newAttempt := attempt + 1
    if newAttempt < MAX_RETRIES then
      .ok (some (.receive8 (.magicByte1 sink 0) 0 newAttempt 0))
    else
      .error (.inl (.receive error))

/-- The Receive32Error arm of Packet::pull, from
src/gba_mobile/src/engine/request/packet/mod.rs; b0 and b1 are the first two
big-endian bytes of the received word. -/
def pullReceive32Error (step : ReceiveStep32Error) (error : ReceiveError)
    (attempt : Nat) (b0 b1 : Nat) :
    Except (PacketError ⊕ CmdError) (Option Packet) :=
  match step with
  | .headerLength sink =>
    let fullLength := (b0 <<< 8) ||| b1
    if fullLength = 0 then
      .ok (some (.receive32Error (.acknowledgementSignal sink) error attempt 0))
    else
      if 2 < fullLength then
        .ok (some (.receive32Error (.checksum sink) error attempt 0))
      else
        .ok (some (.receive32Error (.data sink 2 fullLength) error attempt 0))
  | .data sink index length =>
    if index + 2 ≥ length then
      .ok (some (.receive32Error (.acknowledgementSignal sink) error attempt 0))
    else if index + 4 ≥ length then
      .ok (some (.receive32Error (.checksum sink) error attempt 0))
    else
      .ok (some (.receive32Error (.data sink (index + 4) length) error
        attempt 0))
  | .checksum sink =>
    .ok (some (.receive32Error (.acknowledgementSignal sink) error attempt 0))
  | .acknowledgementSignal sink =>
    let newAttempt := attempt + 1
    if newAttempt < MAX_RETRIES then
      .ok (some (.receive32 (.magicByte sink 0) 0 newAttempt 0))
    else
      .error (.inl (.receive error))

/-- Bytes pushed over one complete 8-bit send attempt, obtained by running
Packet::push (push8) and the Packet::pull step transitions (advance8) from
the given step until the final acknowledgement byte has been pushed.  The
first argument is fuel bounding the number of serial exchanges. -/
def send8Run (source : Source) : Nat → SendStep8 → Nat → List Nat
  | 0, _, _ => []
  | fuel + 1, step, checksum =>
    let (byte, checksum') := push8 step source checksum
    match step with
    | .acknowledgementSignalCommand => [byte]
    | _ => byte :: send8Run source fuel (advance8 step source) checksum'

/-- Full byte trace of one 8-bit send attempt from a fresh packet. -/
def send8Bytes (source : Source) : List Nat :=
  send8Run source (source.length + 16) .magicByte1 0

/-- Words pushed over one complete 32-bit send attempt, obtained by running
Packet::push (push32) and the Packet::pull step transitions (advance32) from
the given step until the acknowledgement word has been pushed. -/
def send32Run (source : Source) : Nat → SendStep32 → Nat → List (List Nat)
  | 0, _, _ => []
  | fuel + 1, step, checksum =>
    let (word, checksum') := push32 step source checksum
    match step with
    | .acknowledgementSignal => [word]
    | _ => word :: send32Run source fuel (advance32 step source) checksum'

/-- Full word trace of one 32-bit send attempt from a fresh packet. -/
def send32Words (source : Source) : List (List Nat) :=
  send32Run source (source.length + 16) .magicByte 0

/-- Iterated acknowledgement-command exchanges of the 8-bit send path under
a fixed adapter echo byte: each exchange runs the
AcknowledgementSignalCommand arm of Packet::pull (pullSend8Ack) at the
current attempt counter; a restarted packet begins the next attempt, any
other outcome stops the iteration. -/
def send8AckRun (source : Source) (echo : Nat) :
    Nat → Nat → Except (PacketError ⊕ CmdError) Packet
  | 0, attempt => .ok (.send8 .magicByte1 source 0 attempt 0)
  | exchanges + 1, attempt =>
    match pullSend8Ack source attempt echo with
    | .ok (.send8 _ _ _ attempt' _) => send8AckRun source echo exchanges attempt'
    | other => other

/-- Generation counter, from src/gba_mobile/src/generation.rs: a 16-bit
counter wrapping on overflow. -/
structure Generation where
  val : Nat
  deriving DecidableEq, Repr

/-- Generation::new. -/
def Generation.new : Generation := ⟨0⟩

/-- Generation::increment, wrapping u16 addition of 1. -/
def Generation.increment (g : Generation) : Generation := ⟨(g.val + 1) % 65536⟩

/-- Request timeouts, from src/gba_mobile/src/driver/request/timeout.rs. -/
inductive RequestTimeout
  | packet (timeout : PacketTimeout)
  | waitForIdle
  | idle
  deriving DecidableEq, Repr

/-- Request errors, from src/gba_mobile/src/driver/request/error.rs. -/
inductive RequestError
  | packet (error : PacketError)
  | notIdle8 (byte : Nat)
  | notIdle32 (word : Nat)
  deriving DecidableEq, Repr

/-- Link-level error kinds, from the Kind enum of
src/gba_mobile/src/driver/error/link.rs (the struct wrapper is flattened;
the closed variant appears there in the final design: driver/mod.rs
constructs it alongside superseded). -/
inductive LinkError
  | request (error : RequestError)
  | timeout (timeout : RequestTimeout)
  | command (error : CmdError)
  | aborted
  | superseded
  | closed
  deriving DecidableEq, Repr

/-- P2P-level error kinds, from the Kind enum of
src/gba_mobile/src/driver/error/p2p.rs (struct wrapper flattened). -/
inductive P2PError
  | command (error : CmdError)
  | closed
  | superseded
  | link (error : LinkError)
  deriving DecidableEq, Repr

/-- Frame count for one second of vblank ticks, from
src/gba_mobile/src/driver/frames.rs. -/
def ONE_SECOND : Nat := 60

/-- Frame count for one hundred milliseconds of vblank ticks, from
src/gba_mobile/src/driver/frames.rs. -/
def ONE_HUNDRED_MILLISECONDS : Nat := 7

/-- Linking flow steps, from src/gba_mobile/src/driver/flow/linking.rs. -/
inductive FlowLinking
  | waking
  | beginSession
  | sio32
  | waitForIdle
  deriving DecidableEq, Repr

/-- Linked flow (idle keep-alive frame counter), from
src/gba_mobile/src/driver/flow/linked.rs. -/
structure FlowLinked where
  frame : Nat
  deriving DecidableEq, Repr

/-- Linked::new. -/
def FlowLinked.new : FlowLinked := ⟨0⟩

/-- Waiting-for-call flow, from
src/gba_mobile/src/driver/flow/waiting_for_call.rs. -/
inductive FlowWaitingForCall
  | previousRequest
  | waitingForCall (frame : Nat)
  deriving DecidableEq, Repr

/-- WaitingForCall::new. -/
def FlowWaitingForCall.new : FlowWaitingForCall := .previousRequest

/-- Destination after the session has been ended, from
src/gba_mobile/src/driver/flow/end_session.rs. -/
inductive EndSessionDestination
  | notConnected
  | linkingP2P
  deriving DecidableEq, Repr

/-- Repr(u8) value of the destination. -/
def EndSessionDestination.toBits : EndSessionDestination → Nat
  | .notConnected => 0
  | .linkingP2P => 1

/-- Transmute of the destination bit back to the destination. -/
def EndSessionDestination.ofBits (bits : Nat) : EndSessionDestination :=
  if bits = 1 then .linkingP2P else .notConnected

/-- Inner flow position of the end-session sequence, from
src/gba_mobile/src/driver/flow/end_session.rs. -/
inductive EndSessionFlow
  | endSession
  | waitForIdle
  deriving DecidableEq, Repr

/-- Transmute of the flow bit back to the flow position. -/
def EndSessionFlow.ofBits (bits : Nat) : EndSessionFlow :=
  if bits = 1 then .waitForIdle else .endSession

/-- Bit-packed end-session flow state, from the EndSession(u8) struct of
src/gba_mobile/src/driver/flow/end_session.rs. -/
structure FlowEndSession where
  bits : Nat
  deriving DecidableEq, Repr

/-- EndSession::new: destination stored in bit 4. -/
def FlowEndSession.new (destination : EndSessionDestination) : FlowEndSession :=
  ⟨destination.toBits <<< 4⟩

/-- EndSession::destination. -/
def FlowEndSession.destination (e : FlowEndSession) : EndSessionDestination :=
  .ofBits ((e.bits &&& 0b00010000) >>> 4)

/-- EndSession::set_destination. -/
def FlowEndSession.setDestination (e : FlowEndSession)
    (destination : EndSessionDestination) : FlowEndSession :=
  ⟨(e.bits &&& 0b11101111) ||| (destination.toBits <<< 4)⟩

/-- EndSession::flow. -/
def FlowEndSession.flow (e : FlowEndSession) : EndSessionFlow :=
  .ofBits (e.bits &&& 0b00000001)

/-- EndSession::next. -/
def FlowEndSession.next (e : FlowEndSession) : Option FlowEndSession :=
  match e.flow with
  | .endSession => some ⟨(e.bits &&& 0b11111110) ||| 1⟩
  | .waitForIdle => none

/-- One pending line activity, from the Request enum of
src/gba_mobile/src/driver/request/mod.rs. -/
inductive Request
  | packet (packet : Packet)
  | waitForIdle (frame : Nat)
  | idle (frame : Nat)

/-- Request::new_packet (the hardware timer scheduling side effect of
schedule_timer is outside the driver state). -/
def Request.newPacket (_timer : HwTimer) (transferLength : TransferLength)
    (source : Source) : Request :=
  .packet (Packet.new transferLength source)

/-- Request::new_wait_for_idle. -/
def Request.newWaitForIdle : Request := .waitForIdle 0

/-- Request::new_idle. -/
def Request.newIdle (_timer : HwTimer) (_transferLength : TransferLength) :
    Request := .idle 0

/-- Idle byte write for the current transfer width (0x4b, or the packed
0x4b4b4b4b word). -/
def idleWrite : TransferLength → SioOut
  | .eightBit => .out8 0x4b
  | .thirtyTwoBit => .out32 [0x4b, 0x4b, 0x4b, 0x4b]

/-- Request::vblank, from src/gba_mobile/src/driver/request/mod.rs: returns
the serial writes performed this tick and either the advanced request or a
timeout.  For a packet, the frame budget is checked first; the first byte of
a response packet is pushed on vblank, every 7 frames. -/
def Request.vblank (request : Request) (transferLength : TransferLength) :
    List SioOut × Except RequestTimeout Request :=
  match request with
  | .packet p =>
    match p.timeout with
    | .error t => ([], .error (RequestTimeout.packet t))
    | .ok q =>
      match q with
      | .receive8 (.magicByte1 sink stepFrame) checksum attempt frame =>
        if stepFrame % ONE_HUNDRED_MILLISECONDS = 0 then
          let (out, q') :=
            Packet.push (.receive8 (.magicByte1 sink stepFrame) checksum
              attempt frame)
          ([out], .ok (.packet q'))
        else ([], .ok (.packet (.receive8 (.magicByte1 sink stepFrame)
          checksum attempt frame)))
      | .receive32 (.magicByte sink stepFrame) checksum attempt frame =>
        if stepFrame % ONE_HUNDRED_MILLISECONDS = 0 then
          let (out, q') :=
            Packet.push (.receive32 (.magicByte sink stepFrame) checksum
              attempt frame)
          ([out], .ok (.packet q'))
        else ([], .ok (.packet (.receive32 (.magicByte sink stepFrame)
          checksum attempt frame)))
      | q => ([], .ok (.packet q))
  | .waitForIdle frame =>
    let writes := if frame % ONE_HUNDRED_MILLISECONDS = 0 then
      [idleWrite transferLength] else []
    if frame > FRAMES_3_SECONDS then (writes, .error .waitForIdle)
    else (writes, .ok (.waitForIdle (frame + 1)))
  | .idle frame =>
    if frame > FRAMES_3_SECONDS then ([], .error .idle)
    else ([], .ok (.idle (frame + 1)))

/-- Request::timer, from src/gba_mobile/src/driver/request/mod.rs: a packet
pushes its current step's bytes, an idle request pushes the idle byte, a
wait-for-idle request does nothing. -/
def Request.timer (request : Request) (transferLength : TransferLength) :
    Request × List SioOut :=
  match request with
  | .packet p =>
    let (out, packet') := p.push
    (.packet packet', [out])
  | .waitForIdle frame => (.waitForIdle frame, [])
  | .idle frame => (.idle frame, [idleWrite transferLength])

/-- The WaitForIdle arm of Request::serial, from
src/gba_mobile/src/driver/request/mod.rs: the request completes when the
adapter responds with its idle value (0xd2, or the full 0xd2d2d2d2 word);
any other read leaves the request pending unchanged.  The read argument is
the raw value read from the serial data register. -/
def wfiSerial (frame : Nat) (transferLength : TransferLength) (read : Nat) :
    Option Request :=
  match transferLength with
  | .eightBit =>
    if read = 0xd2 then none else some (.waitForIdle frame)
  | .thirtyTwoBit =>
    if read = 0xd2d2d2d2 then none else some (.waitForIdle frame)

/-- Linking::request, from src/gba_mobile/src/driver/flow/linking.rs. -/
def FlowLinking.request (flow : FlowLinking) (timer : HwTimer)
    (transferLength : TransferLength) : Request :=
  match flow with
  | .waking => Request.newWaitForIdle
  | .beginSession => Request.newPacket timer transferLength Source.beginSession
  | .sio32 => Request.newPacket timer transferLength Source.enableSio32
  | .waitForIdle => Request.newWaitForIdle

/-- Linking::next, from src/gba_mobile/src/driver/flow/linking.rs. -/
def FlowLinking.next : FlowLinking → Option FlowLinking
  | .waking => some .beginSession
  | .beginSession => some .sio32
  | .sio32 => some .waitForIdle
  | .waitForIdle => none

/-- Linked::request, from src/gba_mobile/src/driver/flow/linked.rs: a 1 Hz
idle keep-alive pulse. -/
def FlowLinked.request (flow : FlowLinked) (timer : HwTimer)
    (transferLength : TransferLength) : FlowLinked × Option Request :=
  if flow.frame ≥ ONE_SECOND then
    (⟨0⟩, some (Request.newIdle timer transferLength))
  else (⟨flow.frame + 1⟩, none)

/-- WaitingForCall::request, from
src/gba_mobile/src/driver/flow/waiting_for_call.rs: issue a WaitForCall
packet immediately after a previous request, then again at 1 Hz. -/
def FlowWaitingForCall.request (flow : FlowWaitingForCall) (timer : HwTimer)
    (transferLength : TransferLength) :
    FlowWaitingForCall × Option Request :=
  match flow with
  | .previousRequest =>
    (.waitingForCall 0,
      some (Request.newPacket timer transferLength Source.waitForCall))
  | .waitingForCall frame =>
    if frame ≥ ONE_SECOND then
      (.waitingForCall 0,
        some (Request.newPacket timer transferLength Source.waitForCall))
    else (.waitingForCall (frame + 1), none)

/-- WaitingForCall::next, from
src/gba_mobile/src/driver/flow/waiting_for_call.rs. -/
def FlowWaitingForCall.next : FlowWaitingForCall → Option FlowWaitingForCall
  | .previousRequest => some (.waitingForCall 0)
  | .waitingForCall _ => none

/-- EndSession::request, from
src/gba_mobile/src/driver/flow/end_session.rs. -/
def FlowEndSession.request (flow : FlowEndSession) (timer : HwTimer)
    (transferLength : TransferLength) : Request :=
  match flow.flow with
  | .endSession => Request.newPacket timer transferLength Source.endSession
  | .waitForIdle => Request.newWaitForIdle

/-- Destination of the intermediate Transition state, from
src/gba_mobile/src/driver/flow/transition.rs. -/
inductive TransitionDestination
  | waitingForCall (callGeneration : Generation)
  | call (callGeneration : Generation) (phoneNumber : List Nat)
  | endSession (destination : EndSessionDestination)

/-- Driver state, from the State enum of src/gba_mobile/src/driver/mod.rs.
A phone number is embedded as its list of digit bytes. -/
inductive DriverState
  | notConnected
  | linking (adapter : Adapter) (transferLength : TransferLength)
      (request : Option Request) (flow : FlowLinking)
  | linked (adapter : Adapter) (transferLength : TransferLength)
      (request : Option Request) (flow : FlowLinked)
      (callGeneration : Generation) (callError : Option CmdError)
  | waitingForCall (adapter : Adapter) (transferLength : TransferLength)
      (request : Option Request) (flow : FlowWaitingForCall)
      (callGeneration : Generation)
  | call (adapter : Adapter) (transferLength : TransferLength)
      (request : Request ⊕ List Nat) (callGeneration : Generation)
  | endSession (adapter : Adapter) (transferLength : TransferLength)
      (request : Option Request) (flow : FlowEndSession)
  | transition (adapter : Adapter) (transferLength : TransferLength)
      (request : Request) (destination : TransitionDestination)
  | commandError (error : CmdError)
  | requestTimeout (timeout : RequestTimeout)
  | requestError (error : RequestError)

/-- The driver facade, from src/gba_mobile/src/driver/mod.rs. -/
structure Driver where
  state : DriverState
  timer : HwTimer
  generation : Generation

/-- Driver::new. -/
def Driver.new (timer : HwTimer) : Driver :=
  ⟨.notConnected, timer, Generation.new⟩

/-- Pending link result, from src/gba_mobile/src/link/pending.rs. -/
structure LinkPending where
  generation : Generation
  deriving DecidableEq, Repr

/-- An established link, from src/gba_mobile/src/link/mod.rs. -/
structure Link where
  generation : Generation
  deriving DecidableEq, Repr

/-- Pending peer-to-peer result, from src/gba_mobile/src/p2p/pending.rs:
captures the link generation and the call generation current at issuance. -/
structure P2PPending where
  generation : Generation
  callGeneration : Generation
  deriving DecidableEq, Repr

/-- State after Driver::link, from src/gba_mobile/src/driver/mod.rs (the
enable_communication register writes are outside the driver state).  The
arms follow the source's ordering: a state still holding a request drains it
through Transition toward an end-session that re-links; a state without one
moves to EndSession directly; an EndSession state is redirected. -/
def Driver.linkState : DriverState → DriverState
  | .notConnected | .commandError _ | .requestTimeout _ | .requestError _ =>
    .linking .blue .eightBit none .waking
  | .linking adapter transferLength (some request) _
  | .linked adapter transferLength (some request) _ _ _
  | .waitingForCall adapter transferLength (some request) _ _
  | .call adapter transferLength (.inl request) _
  | .transition adapter transferLength request _ =>
    .transition adapter transferLength request (.endSession .linkingP2P)
  | .linking adapter transferLength none _
  | .linked adapter transferLength none _ _ _
  | .waitingForCall adapter transferLength none _ _
  | .call adapter transferLength (.inr _) _ =>
    .endSession adapter transferLength none (FlowEndSession.new .linkingP2P)
  | .endSession adapter transferLength request flow =>
    .endSession adapter transferLength request
      (flow.setDestination .linkingP2P)

/-- Driver::link: always increments the link generation and returns a
Pending capturing the new generation. -/
def Driver.link (driver : Driver) : Driver × LinkPending :=
  (⟨Driver.linkState driver.state, driver.timer,
      driver.generation.increment⟩,
   ⟨driver.generation.increment⟩)

/-- Driver::link_status, from src/gba_mobile/src/driver/mod.rs. -/
def Driver.linkStatus (driver : Driver) (generation : Generation) :
    Except LinkError Bool :=
  if generation ≠ driver.generation then .error .superseded
  else
    match driver.state with
    | .notConnected => .error .closed
    | .linking _ _ _ _ => .ok false
    | .linked _ _ _ _ _ _ => .ok true
    | .waitingForCall _ _ _ _ _ => .ok true
    | .transition _ _ _ (.waitingForCall _) => .ok true
    | .call _ _ _ _ => .ok true
    | .transition _ _ _ (.call _ _) => .ok true
    | .endSession _ _ _ _ => .error .closed
    | .transition _ _ _ (.endSession _) => .error .closed
    | .commandError e => .error (.command e)
    | .requestTimeout t => .error (.timeout t)
    | .requestError e => .error (.request e)

/-- Transition of Driver::wait_for_call on the taken state, from
src/gba_mobile/src/driver/mod.rs: a live state bumps the call generation
and heads to WaitingForCall (through Transition when a request is still in
flight); Linking is Superseded; NotConnected and the end-session states are
Closed; an error snapshot reports its error. -/
def Driver.waitForCallTransition :
    DriverState → Except LinkError (Generation × DriverState)
  | .linked adapter transferLength (some request) _ callGeneration _
  | .waitingForCall adapter transferLength (some request) _ callGeneration
  | .call adapter transferLength (.inl request) callGeneration
  | .transition adapter transferLength request
      (.waitingForCall callGeneration)
  | .transition adapter transferLength request (.call callGeneration _) =>
    .ok (callGeneration.increment,
      .transition adapter transferLength request
        (.waitingForCall callGeneration.increment))
  | .linked adapter transferLength none _ callGeneration _
  | .waitingForCall adapter transferLength none _ callGeneration
  | .call adapter transferLength (.inr _) callGeneration =>
    .ok (callGeneration.increment,
      .waitingForCall adapter transferLength none FlowWaitingForCall.new
        callGeneration.increment)
  | .linking _ _ _ _ => .error .superseded
  | .notConnected => .error .closed
  | .endSession _ _ _ _ => .error .closed
  | .transition _ _ _ (.endSession _) => .error .closed
  | .commandError e => .error (.command e)
  | .requestTimeout t => .error (.timeout t)
  | .requestError e => .error (.request e)

/-- Driver::wait_for_call: the state is taken (leaving NotConnected) before
the transition is computed, so an error transition leaves the driver
NotConnected; a stale generation returns Superseded without touching
state. -/
def Driver.waitForCall (driver : Driver) (generation : Generation) :
    Except LinkError Generation × Driver :=
  if generation ≠ driver.generation then (.error .superseded, driver)
  else
    match Driver.waitForCallTransition driver.state with
    | .ok (callGeneration, newState) =>
      (.ok callGeneration, { driver with state := newState })
    | .error e => (.error e, { driver with state := .notConnected })

/-- Transition of Driver::call on the taken state, from
src/gba_mobile/src/driver/mod.rs; mirrors wait_for_call with the Call
destination carrying the phone number. -/
def Driver.callTransition (phoneNumber : List Nat) :
    DriverState → Except LinkError (Generation × DriverState)
  | .linked adapter transferLength (some request) _ callGeneration _
  | .waitingForCall adapter transferLength (some request) _ callGeneration
  | .call adapter transferLength (.inl request) callGeneration
  | .transition adapter transferLength request
      (.waitingForCall callGeneration)
  | .transition adapter transferLength request (.call callGeneration _) =>
    .ok (callGeneration.increment,
      .transition adapter transferLength request
        (.call callGeneration.increment phoneNumber))
  | .linked adapter transferLength none _ callGeneration _
  | .waitingForCall adapter transferLength none _ callGeneration
  | .call adapter transferLength (.inr _) callGeneration =>
    .ok (callGeneration.increment,
      .call adapter transferLength (.inr phoneNumber)
        callGeneration.increment)
  | .linking _ _ _ _ => .error .superseded
  | .notConnected => .error .closed
  | .endSession _ _ _ _ => .error .closed
  | .transition _ _ _ (.endSession _) => .error .closed
  | .commandError e => .error (.command e)
  | .requestTimeout t => .error (.timeout t)
  | .requestError e => .error (.request e)

/-- Driver::call, with the same take-then-transition structure as
wait_for_call. -/
def Driver.call (driver : Driver) (phoneNumber : List Nat)
    (generation : Generation) : Except LinkError Generation × Driver :=
  if generation ≠ driver.generation then (.error .superseded, driver)
  else
    match Driver.callTransition phoneNumber driver.state with
    | .ok (callGeneration, newState) =>
      (.ok callGeneration, { driver with state := newState })
    | .error e => (.error e, { driver with state := .notConnected })

/-- Driver::p2p_status, from src/gba_mobile/src/driver/mod.rs: pure,
generation-gated status read. -/
def Driver.p2pStatus (driver : Driver) (generation : Generation)
    (callGeneration : Generation) : Except P2PError Bool :=
  if generation ≠ driver.generation then .error (.link .superseded)
  else
    match driver.state with
    | .notConnected => .error (.link .closed)
    | .linking _ _ _ _ => .error (.link .superseded)
    | .linked _ _ _ _ currentCallGeneration callError =>
      if callGeneration = currentCallGeneration then
        match callError with
        | some e => .error (.command e)
        | none => .error .closed
      else .error .superseded
    | .waitingForCall _ _ _ _ currentCallGeneration =>
      if callGeneration = currentCallGeneration then .ok false
      else .error .superseded
    | .transition _ _ _ (.waitingForCall currentCallGeneration) =>
      if callGeneration = currentCallGeneration then .ok false
      else .error .superseded
    | .call _ _ _ currentCallGeneration =>
      if callGeneration = currentCallGeneration then .ok false
      else .error .superseded
    | .transition _ _ _ (.call currentCallGeneration _) =>
      if callGeneration = currentCallGeneration then .ok false
      else .error .superseded
    | .endSession _ _ _ _ => .error (.link .closed)
    | .transition _ _ _ (.endSession _) => .error (.link .closed)
    | .commandError e => .error (.link (.command e))
    | .requestTimeout t => .error (.link (.timeout t))
    | .requestError e => .error (.link (.request e))

/-- State after Driver::end_session on a matching generation, from
src/gba_mobile/src/driver/mod.rs. -/
def Driver.endSessionState : DriverState → DriverState
  | .notConnected | .commandError _ | .requestTimeout _ | .requestError _ =>
    .notConnected
  | .linking adapter transferLength (some request) _
  | .linked adapter transferLength (some request) _ _ _
  | .waitingForCall adapter transferLength (some request) _ _
  | .call adapter transferLength (.inl request) _
  | .transition adapter transferLength request _ =>
    .transition adapter transferLength request (.endSession .notConnected)
  | .linking adapter transferLength none _
  | .linked adapter transferLength none _ _ _
  | .waitingForCall adapter transferLength none _ _
  | .call adapter transferLength (.inr _) _ =>
    .endSession adapter transferLength none (FlowEndSession.new .notConnected)
  | .endSession adapter transferLength request flow =>
    .endSession adapter transferLength request
      (flow.setDestination .notConnected)

/-- Driver::end_session: silently ignored when the generation is stale. -/
def Driver.endSession (driver : Driver) (generation : Generation) : Driver :=
  if generation ≠ driver.generation then driver
  else { driver with state := Driver.endSessionState driver.state }

/-- Link::connect, from src/gba_mobile/src/link/mod.rs: place a call and,
on success, hand back a Pending capturing the link generation held by the
Link and the new call generation. -/
def Link.connect (link : Link) (phoneNumber : List Nat) (driver : Driver) :
    Except LinkError P2PPending × Driver :=
  match Driver.call driver phoneNumber link.generation with
  | (.ok callGeneration, driver') =>
    (.ok ⟨link.generation, callGeneration⟩, driver')
  | (.error e, driver') => (.error e, driver')

/-- Pending::status for a peer-to-peer pending token, from
src/gba_mobile/src/p2p/pending.rs: polls Driver::p2p_status with the
captured generations. -/
def P2PPending.status (pending : P2PPending) (driver : Driver) :
    Except P2PError Bool :=
  Driver.p2pStatus driver pending.generation pending.callGeneration

/-- State after one vblank tick, from Driver::vblank in
src/gba_mobile/src/driver/mod.rs: an in-flight request is aged (a timeout
escalates to the RequestTimeout snapshot); otherwise the state's flow
schedules the next request. -/
def Driver.vblankState (state : DriverState) (timer : HwTimer) : DriverState :=
  match state with
  | .notConnected => .notConnected
  | .linking adapter transferLength (some request) flow =>
    (match (request.vblank transferLength).2 with
     | .error t => .requestTimeout t
     | .ok request' => .linking adapter transferLength (some request') flow)
  | .linking adapter transferLength none flow =>
    .linking adapter transferLength
      (some (flow.request timer transferLength)) flow
  | .linked adapter transferLength (some request) flow callGeneration
      callError =>
    (match (request.vblank transferLength).2 with
     | .error t => .requestTimeout t
     | .ok request' =>
       .linked adapter transferLength (some request') flow callGeneration
         callError)
  | .linked adapter transferLength none flow callGeneration callError =>
    let (flow', request') := flow.request timer transferLength
    .linked adapter transferLength request' flow' callGeneration callError
  | .waitingForCall adapter transferLength (some request) flow
      callGeneration =>
    (match (request.vblank transferLength).2 with
     | .error t => .requestTimeout t
     | .ok request' =>
       .waitingForCall adapter transferLength (some request') flow
         callGeneration)
  | .waitingForCall adapter transferLength none flow callGeneration =>
    let (flow', request') := flow.request timer transferLength
    .waitingForCall adapter transferLength request' flow' callGeneration
  | .call adapter transferLength (.inl request) callGeneration =>
    (match (request.vblank transferLength).2 with
     | .error t => .requestTimeout t
     | .ok request' =>
       .call adapter transferLength (.inl request') callGeneration)
  | .call adapter transferLength (.inr phoneNumber) callGeneration =>
    .call adapter transferLength
      (.inl (Request.newPacket timer transferLength
        (Source.call adapter phoneNumber)))
      callGeneration
  | .endSession adapter transferLength (some request) flow =>
    (match (request.vblank transferLength).2 with
     | .error t => .requestTimeout t
     | .ok request' =>
       .endSession adapter transferLength (some request') flow)
  | .endSession adapter transferLength none flow =>
    .endSession adapter transferLength
      (some (flow.request timer transferLength)) flow
  | .transition adapter transferLength request destination =>
    (match (request.vblank transferLength).2 with
     | .error t => .requestTimeout t
     | .ok request' =>
       .transition adapter transferLength request' destination)
  | .commandError e => .commandError e
  | .requestTimeout t => .requestTimeout t
  | .requestError e => .requestError e

/-- Driver::vblank. -/
def Driver.vblank (driver : Driver) : Driver :=
  { driver with state := Driver.vblankState driver.state driver.timer }

/-- State after one timer expiry, from Driver::timer in
src/gba_mobile/src/driver/mod.rs: the in-flight request, if any, pushes its
current bytes (the timer stop and serial writes are hardware effects). -/
def Driver.timerState (state : DriverState) : DriverState :=
  match state with
  | .notConnected => .notConnected
  | .linking adapter transferLength request flow =>
    .linking adapter transferLength
      (request.map (fun r => (r.timer transferLength).1)) flow
  | .linked adapter transferLength request flow callGeneration callError =>
    .linked adapter transferLength
      (request.map (fun r => (r.timer transferLength).1)) flow
      callGeneration callError
  | .waitingForCall adapter transferLength request flow callGeneration =>
    .waitingForCall adapter transferLength
      (request.map (fun r => (r.timer transferLength).1)) flow callGeneration
  | .call adapter transferLength request callGeneration =>
    .call adapter transferLength
      (request.map (fun r => (r.timer transferLength).1) id) callGeneration
  | .endSession adapter transferLength request flow =>
    .endSession adapter transferLength
      (request.map (fun r => (r.timer transferLength).1)) flow
  | .transition adapter transferLength request destination =>
    .transition adapter transferLength (request.timer transferLength).1
      destination
  | .commandError e => .commandError e
  | .requestTimeout t => .requestTimeout t
  | .requestError e => .requestError e

/-- Driver::timer (named timerTick here; the Driver structure's timer field
takes the plain name). -/
def Driver.timerTick (driver : Driver) : Driver :=
  { driver with state := Driver.timerState driver.state }

/-- Outcome of one Request::serial call as seen by Driver::serial: the
returned result together with the values its two mutable borrows (the
state's adapter and transfer length) hold afterwards.  Request::serial is
driven by the serial-data register read and has no access to the driver's
generation or state, so Driver::serial is embedded as a function of this
outcome. -/
structure SerialEnv where
  outcome : Except (RequestError ⊕ CmdError) (Option Request)
  adapter : Adapter
  transferLength : TransferLength

/-- State after one serial transfer-complete interrupt, from Driver::serial
in src/gba_mobile/src/driver/mod.rs, as a function of the in-flight
request's outcome.  States without an in-flight request ignore the event.
The two unimplemented connection-established transitions of the source
(todo panics) are embedded as none. -/
def Driver.serialState (state : DriverState) (env : SerialEnv) :
    Option DriverState :=
  match state with
  | .notConnected => some .notConnected
  | .linking _ _ (some _) flow =>
    (match env.outcome with
     | .ok (some request') =>
       some (.linking env.adapter env.transferLength (some request') flow)
     | .ok none =>
       (match flow.next with
        | some flow' =>
          some (.linking env.adapter env.transferLength none flow')
        | none =>
          some (.linked env.adapter env.transferLength none FlowLinked.new
            Generation.new none))
     | .error (.inl e) => some (.requestError e)
     | .error (.inr e) => some (.commandError e))
  | .linking adapter transferLength none flow =>
    some (.linking adapter transferLength none flow)
  | .linked _ _ (some _) flow callGeneration callError =>
    (match env.outcome with
     | .ok request' =>
       some (.linked env.adapter env.transferLength request' flow
         callGeneration callError)
     | .error (.inl e) => some (.requestError e)
     | .error (.inr e) => some (.commandError e))
  | .linked adapter transferLength none flow callGeneration callError =>
    some (.linked adapter transferLength none flow callGeneration callError)
  | .waitingForCall _ _ (some _) flow callGeneration =>
    (match env.outcome with
     | .ok (some request') =>
       some (.waitingForCall env.adapter env.transferLength (some request')
         flow callGeneration)
     | .ok none => none
     | .error (.inl e) => some (.requestError e)
     | .error (.inr (.waitForTelephoneCall .noCallReceived)) =>
       some (.waitingForCall env.adapter env.transferLength none flow
         callGeneration)
     | .error (.inr e) =>
       some (.linked env.adapter env.transferLength none FlowLinked.new
         callGeneration (some e)))
  | .waitingForCall adapter transferLength none flow callGeneration =>
    some (.waitingForCall adapter transferLength none flow callGeneration)
  | .call _ _ (.inl _) callGeneration =>
    (match env.outcome with
     | .ok (some request') =>
       some (.call env.adapter env.transferLength (.inl request')
         callGeneration)
     | .ok none => none
     | .error (.inl e) => some (.requestError e)
     | .error (.inr e) =>
       some (.linked env.adapter env.transferLength none FlowLinked.new
         callGeneration (some e)))
  | .call adapter transferLength (.inr phoneNumber) callGeneration =>
    some (.call adapter transferLength (.inr phoneNumber) callGeneration)
  | .endSession _ _ (some _) flow =>
    (match env.outcome with
     | .ok (some request') =>
       some (.endSession env.adapter env.transferLength (some request') flow)
     | .ok none =>
       (match flow.next with
        | some flow' =>
          some (.endSession env.adapter env.transferLength none flow')
        | none =>
          (match flow.destination with
           | .notConnected => some .notConnected
           | .linkingP2P =>
             some (.linking env.adapter env.transferLength none
               .beginSession)))
     | .error (.inl e) => some (.requestError e)
     | .error (.inr e) => some (.commandError e))
  | .endSession adapter transferLength none flow =>
    some (.endSession adapter transferLength none flow)
  | .transition _ _ _ destination =>
    (match env.outcome with
     | .ok (some request') =>
       some (.transition env.adapter env.transferLength request' destination)
     | .ok none | .error (.inr _) =>
       (match destination with
        | .waitingForCall callGeneration =>
          some (.waitingForCall env.adapter env.transferLength none
            FlowWaitingForCall.new callGeneration)
        | .call callGeneration phoneNumber =>
          some (.call env.adapter env.transferLength (.inr phoneNumber)
            callGeneration)
        | .endSession destination' =>
          some (.endSession env.adapter env.transferLength none
            (FlowEndSession.new destination')))
     | .error (.inl e) => some (.requestError e))
  | .commandError e => some (.commandError e)
  | .requestTimeout t => some (.requestTimeout t)
  | .requestError e => some (.requestError e)

/-- Driver::serial. -/
def Driver.serial (driver : Driver) (env : SerialEnv) : Option Driver :=
  (Driver.serialState driver.state env).map
    (fun newState => { driver with state := newState })

/-- One hardware interrupt event: vblank, timer expiry, or serial
transfer-complete (with its request outcome). -/
inductive HwEvent
  | vblank
  | timer
  | serial (env : SerialEnv)

/-- Dispatch of one hardware interrupt to the driver's entry points. -/
def Driver.applyEvent (driver : Driver) : HwEvent → Option Driver
  | .vblank => some driver.vblank
  | .timer => some driver.timerTick
  | .serial env => driver.serial env

/-- Dispatch of a sequence of hardware interrupts. -/
def Driver.applyEvents (driver : Driver) : List HwEvent → Option Driver
  | [] => some driver
  | event :: events =>
    match driver.applyEvent event with
    | some driver' => driver'.applyEvents events
    | none => none

theorem cmd_toByte_lt (c : Cmd) : c.toByte < 65536 := by
  cases c <;> decide

theorem send8Run_ackCommand (source : Source) (fuel checksum : Nat)
    (h : 1 ≤ fuel) :
    send8Run source fuel .acknowledgementSignalCommand checksum = [0x00] := by
  obtain ⟨f, rfl⟩ : ∃ f, fuel = f + 1 := ⟨fuel - 1, by omega⟩
  simp [send8Run, push8]

theorem send8Run_ackDevice (source : Source) (fuel checksum : Nat)
    (h : 2 ≤ fuel) :
    send8Run source fuel .acknowledgementSignalDevice checksum
      = [0x81, 0x00] := by
  obtain ⟨f, rfl⟩ : ∃ f, fuel = f + 1 := ⟨fuel - 1, by omega⟩
  simp [send8Run, push8, advance8]
  exact send8Run_ackCommand source f checksum (by omega)

theorem send8Run_checksum2 (source : Source) (fuel checksum : Nat)
    (h : 3 ≤ fuel) :
    send8Run source fuel .checksum2 checksum
      = [checksum % 256, 0x81, 0x00] := by
  obtain ⟨f, rfl⟩ : ∃ f, fuel = f + 1 := ⟨fuel - 1, by omega⟩
  simp [send8Run, push8, advance8]
  exact send8Run_ackDevice source f checksum (by omega)

theorem send8Run_checksum1 (source : Source) (fuel checksum : Nat)
    (h : 4 ≤ fuel) :
    send8Run source fuel .checksum1 checksum
      = [checksum / 256 % 256, checksum % 256, 0x81, 0x00] := by
  obtain ⟨f, rfl⟩ : ∃ f, fuel = f + 1 := ⟨fuel - 1, by omega⟩
  simp [send8Run, push8, advance8]
  exact send8Run_checksum2 source f checksum (by omega)

theorem send8Run_data (source : Source) :
    ∀ (rem i checksum fuel : Nat), source.length = i + rem + 1 →
      rem + 5 ≤ fuel →
      send8Run source fuel (.data i) checksum =
        (List.range' i (rem + 1)).map source.get
          ++ [((checksum + ((List.range' i (rem + 1)).map source.get).sum)
                % 65536) / 256 % 256,
              (checksum + ((List.range' i (rem + 1)).map source.get).sum)
                % 65536 % 256,
              0x81, 0x00] := by
  intro rem
  induction rem with
  | zero =>
    intro i checksum fuel hlen hfuel
    obtain ⟨f, rfl⟩ : ∃ f, fuel = f + 1 := ⟨fuel - 1, by omega⟩
    simp only [send8Run, push8, advance8, hlen]
    rw [if_neg (by omega)]
    rw [send8Run_checksum1 source f (add16 checksum (source.get i)) (by omega)]
    simp [add16, List.range'_succ]
  | succ rem ih =>
    intro i checksum fuel hlen hfuel
    obtain ⟨f, rfl⟩ : ∃ f, fuel = f + 1 := ⟨fuel - 1, by omega⟩
    simp only [send8Run, push8, advance8, hlen]
    rw [if_pos (by omega)]
    rw [ih (i + 1) (add16 checksum (source.get i)) f (by omega) (by omega)]
    simp only [List.range'_succ, List.map_cons, List.sum_cons, List.cons_append,
      add16]
    rw [Nat.mod_add_mod]
    ring_nf

theorem send8Bytes_spec (source : Source) :
    send8Bytes source =
      [0x99, 0x66, source.command.toByte, 0x00, 0x00, source.length]
        ++ (List.range source.length).map source.get
        ++ [((source.command.toByte + source.length
              + ((List.range source.length).map source.get).sum) % 65536)
              / 256 % 256,
            (source.command.toByte + source.length
              + ((List.range source.length).map source.get).sum)
              % 65536 % 256,
            0x81, 0x00] := by
  unfold send8Bytes
  rw [show source.length + 16 = source.length + 15 + 1 from rfl]
  rw [send8Run]; simp only [push8, advance8]
  rw [show source.length + 15 = source.length + 14 + 1 from rfl]
  rw [send8Run]; simp only [push8, advance8]
  rw [show source.length + 14 = source.length + 13 + 1 from rfl]
  rw [send8Run]; simp only [push8, advance8]
  rw [show source.length + 13 = source.length + 12 + 1 from rfl]
  rw [send8Run]; simp only [push8, advance8]
  rw [show source.length + 12 = source.length + 11 + 1 from rfl]
  rw [send8Run]; simp only [push8, advance8]
  rw [show source.length + 11 = source.length + 10 + 1 from rfl]
  rw [send8Run]; simp only [push8, advance8]
  rcases Nat.eq_zero_or_pos source.length with hzero | hpos
  · rw [if_neg (by omega)]
    rw [send8Run_checksum1 source (source.length + 10) _ (by omega)]
    simp [hzero, add16]
  · rw [if_pos hpos]
    obtain ⟨n, hn⟩ : ∃ n, source.length = 0 + n + 1 := ⟨source.length - 1, by omega⟩
    rw [send8Run_data source n 0 _ _ hn (by omega)]
    rw [List.range_eq_range']
    rw [show source.length = n + 1 by omega]
    simp only [add16, List.cons_append, List.nil_append, Nat.zero_add]
    simp only [Nat.mod_add_mod]

/-- C1: For every Source (command, declared length, payload bytes), the
8-bit send path pushes exactly the byte sequence 0x99, 0x66, command ID,
0x00, length-high, length-low, the length payload bytes in index order,
checksum-high, checksum-low, 0x81, and a final acknowledgement byte, where
the 16-bit checksum equals the sum of the command byte, the 0x00 reserved
byte, the two length bytes, and all payload bytes, taken mod 65536 and
emitted big-endian. -/
theorem c1_send8_framing (source : Source) :
    send8Bytes source =
      [0x99, 0x66, source.command.toByte, 0x00, 0x00, source.length]
        ++ (List.range source.length).map source.get
        ++ [((source.command.toByte + 0x00 + 0x00 + source.length
              + ((List.range source.length).map source.get).sum) % 65536)
              / 256 % 256,
            (source.command.toByte + 0x00 + 0x00 + source.length
              + ((List.range source.length).map source.get).sum)
              % 65536 % 256,
            0x81, 0x00] := by
  simpa using send8Bytes_spec source

theorem send8AckRun_retry (source : Source) (echo : Nat)
    (hecho : Cmd.tryFrom (echo ^^^ 0x80) = .ok .notSupportedError) :
    ∀ k a, k + a ≤ 4 →
      send8AckRun source echo k a = .ok (.send8 .magicByte1 source 0 (k + a) 0) := by
  intro k
  induction k with
  | zero => intro a _; simp [send8AckRun]
  | succ k ih =>
    intro a hka
    simp only [send8AckRun, pullSend8Ack, hecho, MAX_RETRIES]
    rw [if_pos (by omega)]
    dsimp only
    rw [ih (a + 1) (by omega)]
    rw [show k + (a + 1) = k + 1 + a by omega]

theorem send8AckRun_exhausted (source : Source) (echo : Nat)
    (hecho : Cmd.tryFrom (echo ^^^ 0x80) = .ok .notSupportedError) :
    ∀ k a, k + a = 5 → 1 ≤ k →
      send8AckRun source echo k a
        = .error (.inl (.send (.unsupportedCommand source.command))) := by
  intro k
  induction k with
  | zero => omega
  | succ k ih =>
    intro a hka _
    rcases Nat.eq_zero_or_pos k with hk | hk
    · subst hk
      have ha : a = 4 := by omega
      subst ha
      simp only [send8AckRun, pullSend8Ack, hecho, MAX_RETRIES]
      rw [if_neg (by omega)]
    · simp only [send8AckRun, pullSend8Ack, hecho, MAX_RETRIES]
      rw [if_pos (by omega)]
      dsimp only
      exact ih (a + 1) (by omega) hk

/-- C2: For every Send packet whose acknowledgement-command exchange yields
a NotSupportedError echo on every attempt, the codec restarts the packet
from scratch (step reset to the first magic byte, checksum reset to 0,
attempt incremented, same Source) while attempts-so-far is less than 5,
makes exactly 5 attempts in total, and after the 5th failure resolves to a
fatal send error UnsupportedCommand carrying the Source's command; the 5th
attempt is never retried. -/
theorem c2_send8_retry_policy (source : Source) (echo : Nat)
    (hecho : Cmd.tryFrom (echo ^^^ 0x80) = .ok .notSupportedError) :
    (∀ attempt, attempt + 1 < 5 →
        pullSend8Ack source attempt echo
          = .ok (.send8 .magicByte1 source 0 (attempt + 1) 0))
    ∧ pullSend8Ack source 4 echo
        = .error (.inl (.send (.unsupportedCommand source.command)))
    ∧ (∀ k, k ≤ 4 →
        send8AckRun source echo k 0
          = .ok (.send8 .magicByte1 source 0 k 0))
    ∧ send8AckRun source echo 5 0
        = .error (.inl (.send (.unsupportedCommand source.command))) := by
  refine ⟨?_, ?_, ?_, ?_⟩
  · intro attempt h
    simp only [pullSend8Ack, hecho, MAX_RETRIES]
    rw [if_pos (by omega)]
  · simp only [pullSend8Ack, hecho, MAX_RETRIES]
    rw [if_neg (by omega)]
  · intro k hk
    simpa using send8AckRun_retry source echo hecho k 0 (by omega)
  · exact send8AckRun_exhausted source echo hecho 5 0 (by omega) (by omega)

/-- Witness for C2 at the concrete BeginSession source and the concrete
NotSupportedError echo byte 0xf0. -/
theorem c2_send8_retry_policy_witness :
    pullSend8Ack Source.beginSession 0 0xf0
      = .ok (.send8 .magicByte1 Source.beginSession 0 1 0)
    ∧ pullSend8Ack Source.beginSession 4 0xf0
      = .error (.inl (.send (.unsupportedCommand Cmd.beginSession)))
    ∧ send8AckRun Source.beginSession 0xf0 5 0
      = .error (.inl (.send (.unsupportedCommand Cmd.beginSession))) := by
  have h := c2_send8_retry_policy Source.beginSession 0xf0 (by rfl)
  exact ⟨h.1 0 (by decide), h.2.1, h.2.2.2⟩

theorem send32PackLoop_succ (source : Source) (index rem offset chk : Nat) :
    send32PackLoop source index (rem + 1) offset chk
      = if index + offset < source.length then
          (source.get (index + offset) ::
            (send32PackLoop source index rem (offset + 1)
              (add16 chk (source.get (index + offset)))).1,
           (send32PackLoop source index rem (offset + 1)
              (add16 chk (source.get (index + offset)))).2)
        else ([], chk) := by
  rfl

theorem send32PackLoop_full (source : Source) (i chk : Nat)
    (h : i + 3 < source.length) :
    send32PackLoop source i 4 0 chk
      = ([source.get i, source.get (i + 1), source.get (i + 2),
          source.get (i + 3)],
         add16 (add16 (add16 (add16 chk (source.get i)) (source.get (i + 1)))
           (source.get (i + 2))) (source.get (i + 3))) := by
  rw [send32PackLoop_succ, if_pos (by omega)]
  rw [send32PackLoop_succ, if_pos (by omega)]
  rw [send32PackLoop_succ, if_pos (by omega)]
  rw [send32PackLoop_succ, if_pos (by omega)]
  simp [send32PackLoop]

theorem send32PackLoop_two (source : Source) (i chk : Nat)
    (h : i + 2 = source.length) :
    send32PackLoop source i 4 0 chk
      = ([source.get i, source.get (i + 1)],
         add16 (add16 chk (source.get i)) (source.get (i + 1))) := by
  rw [send32PackLoop_succ, if_pos (by omega)]
  rw [send32PackLoop_succ, if_pos (by omega)]
  rw [send32PackLoop_succ, if_neg (by omega)]
  simp

theorem send32DataWord_last (source : Source) (i chk : Nat)
    (h : i + 2 = source.length) :
    send32DataWord source i chk
      = ([source.get i, source.get (i + 1),
          (add16 (add16 chk (source.get i)) (source.get (i + 1))) / 256 % 256,
          (add16 (add16 chk (source.get i)) (source.get (i + 1))) % 256],
         add16 (add16 chk (source.get i)) (source.get (i + 1))) := by
  unfold send32DataWord
  rw [send32PackLoop_two source i chk h]
  simp

theorem send32DataWord_full (source : Source) (i chk : Nat)
    (h : i + 3 < source.length) :
    send32DataWord source i chk
      = ([source.get i, source.get (i + 1), source.get (i + 2),
          source.get (i + 3)],
         add16 (add16 (add16 (add16 chk (source.get i)) (source.get (i + 1)))
           (source.get (i + 2))) (source.get (i + 3))) := by
  unfold send32DataWord
  rw [send32PackLoop_full source i chk h]
  simp

theorem send32Run_ack (source : Source) (fuel chk : Nat) (h : 1 ≤ fuel) :
    send32Run source fuel .acknowledgementSignal chk
      = [[0x81, 0x00, 0x00, 0x00]] := by
  obtain ⟨f, rfl⟩ : ∃ f, fuel = f + 1 := ⟨fuel - 1, by omega⟩
  rw [send32Run]
  simp [push32]

theorem send32Run_data_flat (source : Source) :
    ∀ (k i checksum fuel : Nat), source.length = i + 2 + 4 * k →
      k + 2 ≤ fuel →
      (send32Run source fuel (.data i) checksum).flatten
        = (List.range' i (source.length - i)).map source.get
          ++ [((checksum
                + ((List.range' i (source.length - i)).map source.get).sum)
                % 65536) / 256 % 256,
              (checksum
                + ((List.range' i (source.length - i)).map source.get).sum)
                % 65536 % 256,
              0x81, 0x00, 0x00, 0x00] := by
  intro k
  induction k with
  | zero =>
    intro i checksum fuel hlen hfuel
    obtain ⟨f, rfl⟩ : ∃ f, fuel = f + 1 := ⟨fuel - 1, by omega⟩
    rw [send32Run]
    dsimp only
    simp only [push32]
    rw [send32DataWord_last source i checksum (by omega)]
    simp only [advance32]
    rw [if_pos (by omega)]
    rw [send32Run_ack source f _ (by omega)]
    rw [show source.length - i = 2 by omega]
    simp [add16, List.range'_succ, Nat.mod_add_mod]
    exact ⟨by rw [Nat.add_assoc], by rw [Nat.add_assoc]⟩
  | succ k ih =>
    intro i checksum fuel hlen hfuel
    obtain ⟨f, rfl⟩ : ∃ f, fuel = f + 1 := ⟨fuel - 1, by omega⟩
    rw [send32Run]
    dsimp only
    simp only [push32]
    rw [send32DataWord_full source i checksum (by omega)]
    simp only [advance32]
    rw [if_neg (by omega), if_neg (by omega)]
    rw [List.flatten_cons]
    rw [ih (i + 4) _ f (by omega) (by omega)]
    rw [show source.length - i = (source.length - (i + 4)) + 4 by omega]
    rw [← List.range'_append i 4 (source.length - (i + 4)) 1]
    rw [show i + 1 * 4 = i + 4 by omega]
    simp only [List.map_append, List.sum_append, List.cons_append,
      List.nil_append, add16, Nat.mod_add_mod]
    simp [List.range'_succ, Nat.mod_add_mod, Nat.add_assoc]

/-- C8 (amended): For every Source whose declared length is a multiple of 4
(including 0), the concatenation of the 32-bit send path's transferred
words, unpacked big-endian into bytes, equals the byte sequence the 8-bit
send framing produces for the same Source followed by two zero padding
bytes (the tail of the 4-byte acknowledgement word).  The 32-bit path packs
up to 4 bytes per transfer and front-loads the checksum into the trailing
bytes of the last data word when there is room for it. -/
theorem c8_send32_refinement (source : Source) (hlen : source.length % 4 = 0) :
    (send32Words source).flatten = send8Bytes source ++ [0x00, 0x00] := by
  rw [send8Bytes_spec]
  unfold send32Words
  rw [show source.length + 16 = source.length + 15 + 1 from rfl]
  rw [send32Run]
  dsimp only
  simp only [push32, advance32]
  rw [show source.length + 15 = source.length + 14 + 1 from rfl]
  rw [send32Run]
  dsimp only
  simp only [push32, advance32]
  rcases Nat.eq_zero_or_pos source.length with hzero | hpos
  · rw [if_pos hzero, if_pos hzero]
    rw [send32Run_ack source (source.length + 14) _ (by omega)]
    simp [hzero, add16, Nat.mod_add_mod]
  · rw [if_neg (by omega), if_neg (by omega), if_neg (by omega)]
    obtain ⟨k, hk⟩ : ∃ k, source.length = 2 + 2 + 4 * k :=
      ⟨(source.length - 4) / 4, by omega⟩
    dsimp only
    simp only [List.flatten_cons]
    rw [send32Run_data_flat source k 2 _ _ (by omega) (by omega)]
    rw [List.range_eq_range']
    rw [show source.length - 2 = source.length - 1 - 1 by omega]
    rw [show (List.range' 0 source.length : List Nat)
          = 0 :: List.range' 1 (source.length - 1) by
        conv_lhs => rw [show source.length = source.length - 1 + 1 by omega]
        rw [List.range'_succ]]
    rw [show (List.range' 1 (source.length - 1) : List Nat)
          = 1 :: List.range' 2 (source.length - 1 - 1) by
        conv_lhs => rw [show source.length - 1 = source.length - 1 - 1 + 1 by omega]
        rw [List.range'_succ]]
    simp only [List.map_cons, List.sum_cons, List.flatten_cons,
      List.flatten_nil, List.cons_append, List.nil_append, List.append_nil,
      add16, Nat.mod_add_mod]
    simp [Nat.mod_add_mod, Nat.add_assoc]

/-- C8 counterexample: the unpacked 32-bit stream is not bit-exact identical
to the 8-bit framing; for the EnableSio32 source (payload length 1) the
32-bit stream interposes padding bytes and trails the acknowledgement word's
padding, so the two byte sequences differ. -/
theorem c8_send32_bit_exact_counterexample :
    (send32Words Source.enableSio32).flatten ≠ send8Bytes Source.enableSio32 := by
  decide

/-- Witness for C8 at the concrete BeginSession source (payload length 8). -/
theorem c8_send32_refinement_witness :
    (send32Words Source.beginSession).flatten
      = send8Bytes Source.beginSession ++ [0x00, 0x00] :=
  c8_send32_refinement Source.beginSession (by decide)

/-- C10: When a receive packet (8-bit or 32-bit) is in the error-drain
state, every drain step before the final acknowledgement byte keeps the
recorded framing error, the reverted command sink, and the attempt counter
unchanged; at the final acknowledgement byte the codec starts a fresh
receive attempt (checksum 0, the drain state's reverted sink, attempt
incremented) whenever fewer than 5 attempts have completed, and surfaces
the originally recorded framing error as a fatal receive error exactly when
the 5th attempt has failed. -/
theorem c10_receive_error_drain_retry (sink : SinkCommand)
    (error : ReceiveError) (attempt byte b0 b1 : Nat) :
    (attempt + 1 < 5 →
      pullReceive8Error (.acknowledgementSignalCommand sink) error attempt byte
          = .ok (some (.receive8 (.magicByte1 sink 0) 0 (attempt + 1) 0))
        ∧ pullReceive32Error (.acknowledgementSignal sink) error attempt b0 b1
          = .ok (some (.receive32 (.magicByte sink 0) 0 (attempt + 1) 0)))
    ∧ (5 ≤ attempt + 1 →
      pullReceive8Error (.acknowledgementSignalCommand sink) error attempt byte
          = .error (.inl (.receive error))
        ∧ pullReceive32Error (.acknowledgementSignal sink) error attempt b0 b1
          = .error (.inl (.receive error)))
    ∧ (∀ step : ReceiveStep8Error,
        (∀ s, step ≠ .acknowledgementSignalCommand s) →
        ∃ step', pullReceive8Error step error attempt byte
          = .ok (some (.receive8Error step' error attempt 0)))
    ∧ (∀ step : ReceiveStep32Error,
        (∀ s, step ≠ .acknowledgementSignal s) →
        ∃ step', pullReceive32Error step error attempt b0 b1
          = .ok (some (.receive32Error step' error attempt 0))) := by
  refine ⟨?_, ?_, ?_, ?_⟩
  · intro h
    constructor
    · simp only [pullReceive8Error, MAX_RETRIES]
      rw [if_pos (by omega)]
    · simp only [pullReceive32Error, MAX_RETRIES]
      rw [if_pos (by omega)]
  · intro h
    constructor
    · simp only [pullReceive8Error, MAX_RETRIES]
      rw [if_neg (by omega)]
    · simp only [pullReceive32Error, MAX_RETRIES]
      rw [if_neg (by omega)]
  · intro step hstep
    cases step with
    | acknowledgementSignalCommand s => exact absurd rfl (hstep s)
    | magicByte2 s => exact ⟨_, rfl⟩
    | headerCommand s => exact ⟨_, rfl⟩
    | headerEmptyByte s => exact ⟨_, rfl⟩
    | headerLength1 s => exact ⟨_, rfl⟩
    | headerLength2 s fb =>
      by_cases hz : (fb <<< 8) ||| byte = 0
      · exact ⟨_, by simp only [pullReceive8Error]; rw [if_pos hz]⟩
      · exact ⟨_, by simp only [pullReceive8Error]; rw [if_neg hz]⟩
    | data s index length =>
      by_cases hz : index + 1 < length
      · exact ⟨_, by simp only [pullReceive8Error]; rw [if_pos hz]⟩
      · exact ⟨_, by simp only [pullReceive8Error]; rw [if_neg hz]⟩
    | checksum1 s => exact ⟨_, rfl⟩
    | checksum2 s => exact ⟨_, rfl⟩
    | acknowledgementSignalDevice s => exact ⟨_, rfl⟩
  · intro step hstep
    cases step with
    | acknowledgementSignal s => exact absurd rfl (hstep s)
    | headerLength s =>
      by_cases hz : (b0 <<< 8) ||| b1 = 0
      · exact ⟨_, by simp only [pullReceive32Error]; rw [if_pos hz]⟩
      · by_cases h2 : 2 < (b0 <<< 8) ||| b1
        · exact ⟨_, by simp only [pullReceive32Error]; rw [if_neg hz, if_pos h2]⟩
        · exact ⟨_, by simp only [pullReceive32Error]; rw [if_neg hz, if_neg h2]⟩
    | data s index length =>
      by_cases ha : index + 2 ≥ length
      · exact ⟨_, by simp only [pullReceive32Error]; rw [if_pos ha]⟩
      · by_cases hb : index + 4 ≥ length
        · exact ⟨_, by simp only [pullReceive32Error]; rw [if_neg ha, if_pos hb]⟩
        · exact ⟨_, by simp only [pullReceive32Error]; rw [if_neg ha, if_neg hb]⟩
    | checksum s => exact ⟨_, rfl⟩

/-- Witness for C10 at concrete drain states: a first-attempt checksum
error retries with a fresh receive, a fifth-attempt failure surfaces the
recorded error, and a drain data step keeps draining. -/
theorem c10_receive_error_drain_retry_witness :
    (pullReceive8Error (.acknowledgementSignalCommand .beginSession)
        (.checksum 1 2) 0 0
      = .ok (some (.receive8 (.magicByte1 .beginSession 0) 0 1 0)))
    ∧ (pullReceive8Error (.acknowledgementSignalCommand .beginSession)
        (.checksum 1 2) 4 0
      = .error (.inl (.receive (.checksum 1 2))))
    ∧ (∃ step', pullReceive8Error (.data .beginSession 0 8) (.checksum 1 2) 0 0
      = .ok (some (.receive8Error step' (.checksum 1 2) 0 0))) := by
  have h0 := c10_receive_error_drain_retry .beginSession (.checksum 1 2) 0 0 0 0
  have h4 := c10_receive_error_drain_retry .beginSession (.checksum 1 2) 4 0 0 0
  exact ⟨(h0.1 (by omega)).1, (h4.2.1 (by omega)).1,
    h0.2.2.1 (.data .beginSession 0 8) (by intro s h; cases h)⟩

theorem Driver.vblank_generation (d : Driver) :
    d.vblank.generation = d.generation := rfl

theorem Driver.timerTick_generation (d : Driver) :
    d.timerTick.generation = d.generation := rfl

theorem Driver.serial_generation (d : Driver) (env : SerialEnv) (d' : Driver)
    (h : d.serial env = some d') : d'.generation = d.generation := by
  unfold Driver.serial at h
  cases heq : Driver.serialState d.state env with
  | none => rw [heq] at h; simp at h
  | some s =>
    rw [heq] at h
    have h' : { d with state := s } = d' := Option.some.inj h
    rw [← h']

theorem Driver.applyEvent_generation (d : Driver) (event : HwEvent)
    (d' : Driver) (h : d.applyEvent event = some d') :
    d'.generation = d.generation := by
  cases event with
  | vblank =>
    have h' : d.vblank = d' := Option.some.inj h
    rw [← h']
    rfl
  | timer =>
    have h' : d.timerTick = d' := Option.some.inj h
    rw [← h']
    rfl
  | serial env => exact Driver.serial_generation d env d' h

theorem Driver.applyEvents_generation :
    ∀ (events : List HwEvent) (d d' : Driver),
      d.applyEvents events = some d' → d'.generation = d.generation := by
  intro events
  induction events with
  | nil =>
    intro d d' h
    have h' : d = d' := Option.some.inj h
    rw [← h']
  | cons event events ih =>
    intro d d' h
    unfold Driver.applyEvents at h
    cases heq : d.applyEvent event with
    | none => rw [heq] at h; simp at h
    | some d1 =>
      rw [heq] at h
      rw [ih d1 d' h, Driver.applyEvent_generation d event d1 heq]

theorem Driver.call_generation (d : Driver) (phoneNumber : List Nat)
    (g : Generation) : ((d.call phoneNumber g).2).generation = d.generation := by
  unfold Driver.call
  split
  · rfl
  · cases Driver.callTransition phoneNumber d.state with
    | ok p => rfl
    | error e => rfl

theorem generation_iterate (n : Nat) :
    Generation.increment^[n] Generation.new = ⟨n % 65536⟩ := by
  induction n with
  | zero => rfl
  | succ n ih =>
    rw [Function.iterate_succ_apply', ih]
    show (⟨(n % 65536 + 1) % 65536⟩ : Generation) = ⟨(n + 1) % 65536⟩
    congr 1
    omega

/-- C4: Generation::new() followed by 65536 applications of increment()
returns to the original value; link() always replaces the driver's
generation with the increment of its previous value (in every state, even
if already linking) and returns a Pending capturing the new generation, so
no two consecutive link() calls ever produce the same generation. -/
theorem c4_generation_wraps_and_link_increments :
    Generation.increment^[65536] Generation.new = Generation.new
    ∧ (∀ d : Driver,
        (d.link.1).generation = d.generation.increment
          ∧ (d.link.2).generation = d.generation.increment)
    ∧ (∀ d : Driver, d.generation.val < 65536 →
        ((d.link.1).link.2).generation ≠ (d.link.2).generation) := by
  refine ⟨?_, fun d => ⟨rfl, rfl⟩, ?_⟩
  · rw [generation_iterate]
    decide
  · intro d h
    have h3 : ((d.link.1).link.2).generation.val
        = ((d.generation.val + 1) % 65536 + 1) % 65536 := rfl
    have h4 : (d.link.2).generation.val = (d.generation.val + 1) % 65536 :=
      rfl
    intro heq
    have h5 : ((d.generation.val + 1) % 65536 + 1) % 65536
        = (d.generation.val + 1) % 65536 := by
      rw [← h3, ← h4, heq]
    omega

/-- Witness for C4 on a freshly constructed driver. -/
theorem c4_generation_wraps_and_link_increments_witness :
    (((Driver.new .t0).link.1).link.2).generation
      ≠ ((Driver.new .t0).link.2).generation :=
  c4_generation_wraps_and_link_increments.2.2 (Driver.new .t0) (by decide)

/-- C3: For every reachable driver state in which call() succeeds and
returns a pending token capturing the current link and call generations, if
link() is subsequently called, then every later status poll of that
original token (p2p_status with the captured generations) returns the
Superseded error, regardless of the driver's session state or any
intervening hardware events. -/
theorem c3_pending_superseded_after_link (d : Driver)
    (phoneNumber : List Nat) (pending : P2PPending)
    (events : List HwEvent) (d2 : Driver)
    (hconnect : ((Link.mk d.generation).connect phoneNumber d).1
      = .ok pending)
    (hevents : ((((Link.mk d.generation).connect phoneNumber d).2.link.1).applyEvents
        events) = some d2) :
    pending.status d2 = .error (.link .superseded) := by
  have hpg : pending.generation = d.generation := by
    unfold Link.connect at hconnect
    cases hc : Driver.call d phoneNumber d.generation with
    | mk result driver' =>
      rw [hc] at hconnect
      cases result with
      | ok cg => simp at hconnect; rw [← hconnect]
      | error e => simp at hconnect
  have hd2 : d2.generation
      = (((Link.mk d.generation).connect phoneNumber d).2.link.1).generation :=
    Driver.applyEvents_generation events _ d2 hevents
  have hlinkgen : ∀ dx : Driver, (dx.link.1).generation
      = dx.generation.increment := fun dx => rfl
  have hconngen : (((Link.mk d.generation).connect phoneNumber d).2).generation
      = d.generation := by
    unfold Link.connect
    cases hc : Driver.call d phoneNumber d.generation with
    | mk result driver' =>
      have := Driver.call_generation d phoneNumber d.generation
      rw [hc] at this
      cases result with
      | ok cg => simpa using this
      | error e => simpa using this
  unfold P2PPending.status Driver.p2pStatus
  rw [hpg, hd2, hlinkgen, hconngen]
  have hne : d.generation ≠ d.generation.increment := by
    intro heq
    have hv := congrArg Generation.val heq
    have hv2 : (d.generation.increment).val = (d.generation.val + 1) % 65536 :=
      rfl
    rw [hv2] at hv
    omega
  rw [if_pos hne]

/-- Witness for C3: a linked driver at link generation 3 with call
generation 0; the call succeeds capturing (3, 1), a link() follows, and the
original token polls as Superseded. -/
theorem c3_pending_superseded_after_link_witness :
    P2PPending.status ⟨⟨3⟩, ⟨1⟩⟩
        (((Link.mk (⟨3⟩ : Generation)).connect []
            ⟨.linked .blue .eightBit none FlowLinked.new ⟨0⟩ none, .t0,
              ⟨3⟩⟩).2.link.1)
      = .error (.link .superseded) :=
  c3_pending_superseded_after_link
    ⟨.linked .blue .eightBit none FlowLinked.new ⟨0⟩ none, .t0, ⟨3⟩⟩ []
    ⟨⟨3⟩, ⟨1⟩⟩ [] _ (by rfl) (by rfl)

/-- C5: A WaitForIdle request that never observes the adapter idle byte
0xd2 sends the idle byte 0x4b exactly once every 7 vblank ticks (on every
tick where its frame counter is a multiple of 7) and resolves to a timeout
error on tick 181, having exceeded the 180-frame (3 second) budget: each
vblank with frame counter n at most 180 writes the idle byte exactly when
n is a multiple of 7 and advances to frame n + 1, the vblank at frame 181
resolves to the WaitForIdle timeout, and a serial read that is not the
adapter idle value leaves the request pending unchanged. -/
theorem c5_wait_for_idle_timing :
    (∀ (n : Nat) (tl : TransferLength), n ≤ 180 →
      Request.vblank (.waitForIdle n) tl
        = (if n % 7 = 0 then [idleWrite tl] else [],
           .ok (.waitForIdle (n + 1))))
    ∧ (∀ tl : TransferLength,
        Request.vblank (.waitForIdle 181) tl = ([], .error .waitForIdle))
    ∧ (∀ (n read : Nat), read ≠ 0xd2 →
        wfiSerial n .eightBit read = some (.waitForIdle n))
    ∧ (∀ (n read : Nat), read ≠ 0xd2d2d2d2 →
        wfiSerial n .thirtyTwoBit read = some (.waitForIdle n)) := by
  refine ⟨?_, ?_, ?_, ?_⟩
  · intro n tl h
    simp only [Request.vblank, ONE_HUNDRED_MILLISECONDS, FRAMES_3_SECONDS]
    rw [if_neg (by omega : ¬ n > 180)]
  · intro tl
    simp only [Request.vblank, ONE_HUNDRED_MILLISECONDS, FRAMES_3_SECONDS]
    rfl
  · intro n read h
    simp only [wfiSerial]
    rw [if_neg h]
  · intro n read h
    simp only [wfiSerial]
    rw [if_neg h]

/-- Witness for C5 at concrete frames: an idle byte at frame 0, silence at
frame 1, timeout at frame 181, and a non-idle serial read leaving the
request pending. -/
theorem c5_wait_for_idle_timing_witness :
    Request.vblank (.waitForIdle 0) .eightBit
      = ([.out8 0x4b], .ok (.waitForIdle 1))
    ∧ Request.vblank (.waitForIdle 1) .eightBit
      = ([], .ok (.waitForIdle 2))
    ∧ Request.vblank (.waitForIdle 181) .eightBit
      = ([], .error .waitForIdle)
    ∧ wfiSerial 3 .eightBit 0x4b = some (.waitForIdle 3) := by
  have h := c5_wait_for_idle_timing
  refine ⟨?_, ?_, h.2.1 .eightBit, h.2.2.1 3 0x4b (by decide)⟩
  · have h0 := h.1 0 .eightBit (by decide)
    simpa using h0
  · have h1 := h.1 1 .eightBit (by decide)
    simpa using h1

/-- C6 counterexample: in the final design the link-teardown machinery is
the EndSession state (its LinkingP2P destination is the recover-then-relink
sequence) and the Transition state draining toward it; a call intent there
fails with Closed, not Superseded. -/
theorem c6_teardown_closed_counterexample :
    (Driver.call
        ⟨.endSession .blue .eightBit none (FlowEndSession.new .linkingP2P),
          .t0, ⟨0⟩⟩ [] ⟨0⟩).1
      = .error .closed
    ∧ (Driver.waitForCall
        ⟨.endSession .blue .eightBit none (FlowEndSession.new .linkingP2P),
          .t0, ⟨0⟩⟩ ⟨0⟩).1
      = .error .closed
    ∧ LinkError.closed ≠ LinkError.superseded := by
  refine ⟨rfl, rfl, by decide⟩

/-- C6 (amended): For wait_for_call and call invoked with the current link
generation: in Linking the call fails with Superseded; in NotConnected, in
EndSession (either destination, including the recover-then-relink
teardown), or mid-transition toward EndSession it fails with Closed;
otherwise (a live session: Linked, WaitingForCall, Call, or a transition
toward those) the call generation is bumped by one and the new value is
returned, with the state redirected to the requested activity (through
Transition when a request is still in flight). -/
theorem c6_call_intents (timer : HwTimer) (g cg : Generation)
    (adapter : Adapter) (tl : TransferLength) (phone prevPhone : List Nat)
    (oreq : Option Request) (request : Request)
    (linkingFlow : FlowLinking) (linkedFlow : FlowLinked)
    (wfcFlow : FlowWaitingForCall) (esFlow : FlowEndSession)
    (esDest : EndSessionDestination) (callError : Option CmdError) :
    ((Driver.waitForCall ⟨.linking adapter tl oreq linkingFlow, timer, g⟩
        g).1 = .error .superseded
      ∧ (Driver.call ⟨.linking adapter tl oreq linkingFlow, timer, g⟩ phone
          g).1 = .error .superseded)
    ∧ ((Driver.waitForCall ⟨.notConnected, timer, g⟩ g).1 = .error .closed
      ∧ (Driver.call ⟨.notConnected, timer, g⟩ phone g).1 = .error .closed)
    ∧ ((Driver.waitForCall ⟨.endSession adapter tl oreq esFlow, timer, g⟩
          g).1 = .error .closed
      ∧ (Driver.call ⟨.endSession adapter tl oreq esFlow, timer, g⟩ phone
          g).1 = .error .closed)
    ∧ ((Driver.waitForCall
          ⟨.transition adapter tl request (.endSession esDest), timer, g⟩
          g).1 = .error .closed
      ∧ (Driver.call
          ⟨.transition adapter tl request (.endSession esDest), timer, g⟩
          phone g).1 = .error .closed)
    ∧ (Driver.waitForCall
        ⟨.linked adapter tl none linkedFlow cg callError, timer, g⟩ g
        = (.ok cg.increment,
           ⟨.waitingForCall adapter tl none FlowWaitingForCall.new
              cg.increment, timer, g⟩)
      ∧ Driver.call ⟨.linked adapter tl none linkedFlow cg callError, timer,
          g⟩ phone g
        = (.ok cg.increment,
           ⟨.call adapter tl (.inr phone) cg.increment, timer, g⟩))
    ∧ (Driver.waitForCall
        ⟨.waitingForCall adapter tl none wfcFlow cg, timer, g⟩ g
        = (.ok cg.increment,
           ⟨.waitingForCall adapter tl none FlowWaitingForCall.new
              cg.increment, timer, g⟩)
      ∧ Driver.call ⟨.waitingForCall adapter tl none wfcFlow cg, timer, g⟩
          phone g
        = (.ok cg.increment,
           ⟨.call adapter tl (.inr phone) cg.increment, timer, g⟩))
    ∧ (Driver.waitForCall ⟨.call adapter tl (.inr prevPhone) cg, timer, g⟩ g
        = (.ok cg.increment,
           ⟨.waitingForCall adapter tl none FlowWaitingForCall.new
              cg.increment, timer, g⟩)
      ∧ Driver.call ⟨.call adapter tl (.inr prevPhone) cg, timer, g⟩ phone g
        = (.ok cg.increment,
           ⟨.call adapter tl (.inr phone) cg.increment, timer, g⟩))
    ∧ (Driver.waitForCall
        ⟨.linked adapter tl (some request) linkedFlow cg callError, timer,
          g⟩ g
        = (.ok cg.increment,
           ⟨.transition adapter tl request (.waitingForCall cg.increment),
              timer, g⟩)
      ∧ Driver.call ⟨.linked adapter tl (some request) linkedFlow cg
          callError, timer, g⟩ phone g
        = (.ok cg.increment,
           ⟨.transition adapter tl request (.call cg.increment phone),
              timer, g⟩))
    ∧ (Driver.waitForCall
        ⟨.waitingForCall adapter tl (some request) wfcFlow cg, timer, g⟩ g
        = (.ok cg.increment,
           ⟨.transition adapter tl request (.waitingForCall cg.increment),
              timer, g⟩)
      ∧ Driver.call
          ⟨.waitingForCall adapter tl (some request) wfcFlow cg, timer, g⟩
          phone g
        = (.ok cg.increment,
           ⟨.transition adapter tl request (.call cg.increment phone),
              timer, g⟩))
    ∧ (Driver.waitForCall ⟨.call adapter tl (.inl request) cg, timer, g⟩ g
        = (.ok cg.increment,
           ⟨.transition adapter tl request (.waitingForCall cg.increment),
              timer, g⟩)
      ∧ Driver.call ⟨.call adapter tl (.inl request) cg, timer, g⟩ phone g
        = (.ok cg.increment,
           ⟨.transition adapter tl request (.call cg.increment phone),
              timer, g⟩))
    ∧ (Driver.waitForCall
        ⟨.transition adapter tl request (.waitingForCall cg), timer, g⟩ g
        = (.ok cg.increment,
           ⟨.transition adapter tl request (.waitingForCall cg.increment),
              timer, g⟩)
      ∧ Driver.call
          ⟨.transition adapter tl request (.call cg prevPhone), timer, g⟩
          phone g
        = (.ok cg.increment,
           ⟨.transition adapter tl request (.call cg.increment phone),
              timer, g⟩)) := by
  refine ⟨⟨?_, ?_⟩, ⟨?_, ?_⟩, ⟨?_, ?_⟩, ⟨?_, ?_⟩, ⟨?_, ?_⟩, ⟨?_, ?_⟩,
    ⟨?_, ?_⟩, ⟨?_, ?_⟩, ⟨?_, ?_⟩, ⟨?_, ?_⟩, ⟨?_, ?_⟩⟩ <;>
    simp only [Driver.waitForCall, Driver.call,
      Driver.waitForCallTransition, Driver.callTransition, ne_eq,
      not_true_eq_false, if_false, ite_self]

/-- C7: In the WaitingForCall state, when the in-flight request resolves
with the adapter command error NoCallReceived, this is not a failure: the
driver stays in WaitingForCall with the same call generation (with no
request scheduled, so the flow issues another WaitForCall command on the
next 1 Hz tick); every other command error instead demotes the state to
Linked with that error latched as the call error and the call generation
preserved. -/
theorem c7_waiting_for_call_errors (timer : HwTimer) (g cg : Generation)
    (adapter : Adapter) (tl : TransferLength) (request : Request)
    (flow : FlowWaitingForCall) (env : SerialEnv) :
    (env.outcome = .error (.inr (.waitForTelephoneCall .noCallReceived)) →
      Driver.serial ⟨.waitingForCall adapter tl (some request) flow cg,
          timer, g⟩ env
        = some ⟨.waitingForCall env.adapter env.transferLength none flow cg,
            timer, g⟩)
    ∧ (∀ e : CmdError, e ≠ .waitForTelephoneCall .noCallReceived →
        env.outcome = .error (.inr e) →
        Driver.serial ⟨.waitingForCall adapter tl (some request) flow cg,
            timer, g⟩ env
          = some ⟨.linked env.adapter env.transferLength none FlowLinked.new
              cg (some e), timer, g⟩)
    ∧ (∀ frame, ONE_SECOND ≤ frame →
        FlowWaitingForCall.request (.waitingForCall frame) timer tl
          = (.waitingForCall 0,
             some (Request.newPacket timer tl Source.waitForCall)))
    ∧ (∀ frame, frame < ONE_SECOND →
        FlowWaitingForCall.request (.waitingForCall frame) timer tl
          = (.waitingForCall (frame + 1), none)) := by
  refine ⟨?_, ?_, ?_, ?_⟩
  · intro h
    simp only [Driver.serial, Driver.serialState, h]
    rfl
  · intro e hne h
    simp only [Driver.serial, Driver.serialState, h]
    cases e with
    | waitForTelephoneCall err =>
      cases err with
      | noCallReceived => exact absurd rfl hne
      | alreadyCalling => rfl
      | internalError => rfl
    | beginSession v => rfl
    | endSession v => rfl
    | dialTelephone v => rfl
    | hangUpTelephone v => rfl
    | transferData v => rfl
    | reset v => rfl
    | sio32Mode v => rfl
    | readConfigurationData v => rfl
    | writeConfigurationData v => rfl
    | ispLogin v => rfl
    | ispLogout v => rfl
    | openTcpConnection v => rfl
    | closeTcpConnection v => rfl
    | openUdpConnection v => rfl
    | closeUdpConnection v => rfl
    | dnsQuery v => rfl
  · intro frame h
    simp only [ONE_SECOND] at h
    simp only [FlowWaitingForCall.request, ONE_SECOND]
    rw [if_pos (by omega)]
  · intro frame h
    simp only [ONE_SECOND] at h
    simp only [FlowWaitingForCall.request, ONE_SECOND]
    rw [if_neg (by omega)]

/-- Witness for C7 at concrete inputs: a NoCallReceived outcome keeps
waiting; an AlreadyCalling outcome demotes to Linked with the error
latched; the flow reissues WaitForCall at frame 60 and counts up before
that. -/
theorem c7_waiting_for_call_errors_witness :
    Driver.serial
        ⟨.waitingForCall .blue .eightBit (some Request.newWaitForIdle)
            .previousRequest ⟨0⟩, .t0, ⟨1⟩⟩
        ⟨.error (.inr (.waitForTelephoneCall .noCallReceived)), .blue,
          .eightBit⟩
      = some ⟨.waitingForCall .blue .eightBit none .previousRequest ⟨0⟩,
          .t0, ⟨1⟩⟩
    ∧ Driver.serial
        ⟨.waitingForCall .blue .eightBit (some Request.newWaitForIdle)
            .previousRequest ⟨0⟩, .t0, ⟨1⟩⟩
        ⟨.error (.inr (.waitForTelephoneCall .alreadyCalling)), .blue,
          .eightBit⟩
      = some ⟨.linked .blue .eightBit none FlowLinked.new ⟨0⟩
          (some (.waitForTelephoneCall .alreadyCalling)), .t0, ⟨1⟩⟩
    ∧ FlowWaitingForCall.request (.waitingForCall 60) .t0 .eightBit
      = (.waitingForCall 0,
         some (Request.newPacket .t0 .eightBit Source.waitForCall))
    ∧ FlowWaitingForCall.request (.waitingForCall 3) .t0 .eightBit
      = (.waitingForCall 4, none) := by
  have h := c7_waiting_for_call_errors .t0 ⟨1⟩ ⟨0⟩ .blue .eightBit
    Request.newWaitForIdle .previousRequest
    ⟨.error (.inr (.waitForTelephoneCall .noCallReceived)), .blue, .eightBit⟩
  have h2 := c7_waiting_for_call_errors .t0 ⟨1⟩ ⟨0⟩ .blue .eightBit
    Request.newWaitForIdle .previousRequest
    ⟨.error (.inr (.waitForTelephoneCall .alreadyCalling)), .blue, .eightBit⟩
  exact ⟨h.1 rfl,
    h2.2.1 (.waitForTelephoneCall .alreadyCalling) (by decide) rfl,
    h.2.2.1 60 (by decide), h.2.2.2 3 (by decide)⟩

/-- C9 counterexample: end_session invoked with the current generation on a
CommandError snapshot resets the driver to NotConnected, and the next
status query reports Closed instead of the captured error, so a public
operation other than link() removes the snapshot. -/
theorem c9_snapshot_cleared_counterexample :
    Driver.endSession ⟨.commandError (.beginSession 2), .t0, ⟨0⟩⟩ ⟨0⟩
      = ⟨.notConnected, .t0, ⟨0⟩⟩
    ∧ Driver.linkStatus
        (Driver.endSession ⟨.commandError (.beginSession 2), .t0, ⟨0⟩⟩ ⟨0⟩)
        ⟨0⟩
      = .error .closed
    ∧ LinkError.closed ≠ .command (.beginSession 2) :=
  ⟨rfl, rfl, by decide⟩

/-- C9 (amended): Once a fatal error is captured into the driver's error
snapshot (the CommandError, RequestTimeout, or RequestError states), the
interrupt entry points vblank, timer, and serial never change the snapshot;
status queries with the current generation report the captured error; and
public operations invoked with a stale generation leave the snapshot in
place.  However, besides link(), the operations end_session, wait_for_call,
and call invoked with the current generation also remove the snapshot,
resetting the driver to NotConnected (the latter two while returning the
captured error); link() replaces it with a fresh Linking state. -/
theorem c9_error_snapshot_persistence (timer : HwTimer)
    (g gStale cg : Generation) (e : CmdError) (t : RequestTimeout)
    (re : RequestError) (env : SerialEnv) :
    ((⟨.commandError e, timer, g⟩ : Driver).vblank
        = ⟨.commandError e, timer, g⟩
      ∧ (⟨.commandError e, timer, g⟩ : Driver).timerTick
        = ⟨.commandError e, timer, g⟩
      ∧ (⟨.commandError e, timer, g⟩ : Driver).serial env
        = some ⟨.commandError e, timer, g⟩)
    ∧ ((⟨.requestTimeout t, timer, g⟩ : Driver).vblank
        = ⟨.requestTimeout t, timer, g⟩
      ∧ (⟨.requestTimeout t, timer, g⟩ : Driver).timerTick
        = ⟨.requestTimeout t, timer, g⟩
      ∧ (⟨.requestTimeout t, timer, g⟩ : Driver).serial env
        = some ⟨.requestTimeout t, timer, g⟩)
    ∧ ((⟨.requestError re, timer, g⟩ : Driver).vblank
        = ⟨.requestError re, timer, g⟩
      ∧ (⟨.requestError re, timer, g⟩ : Driver).timerTick
        = ⟨.requestError re, timer, g⟩
      ∧ (⟨.requestError re, timer, g⟩ : Driver).serial env
        = some ⟨.requestError re, timer, g⟩)
    ∧ (Driver.linkStatus ⟨.commandError e, timer, g⟩ g = .error (.command e)
      ∧ Driver.p2pStatus ⟨.commandError e, timer, g⟩ g cg
        = .error (.link (.command e))
      ∧ Driver.linkStatus ⟨.requestTimeout t, timer, g⟩ g
        = .error (.timeout t)
      ∧ Driver.p2pStatus ⟨.requestTimeout t, timer, g⟩ g cg
        = .error (.link (.timeout t))
      ∧ Driver.linkStatus ⟨.requestError re, timer, g⟩ g
        = .error (.request re)
      ∧ Driver.p2pStatus ⟨.requestError re, timer, g⟩ g cg
        = .error (.link (.request re)))
    ∧ (gStale ≠ g →
      Driver.endSession ⟨.commandError e, timer, g⟩ gStale
          = ⟨.commandError e, timer, g⟩
        ∧ (Driver.waitForCall ⟨.commandError e, timer, g⟩ gStale).2
          = ⟨.commandError e, timer, g⟩
        ∧ (Driver.call ⟨.commandError e, timer, g⟩ [] gStale).2
          = ⟨.commandError e, timer, g⟩)
    ∧ (Driver.endSession ⟨.commandError e, timer, g⟩ g
        = ⟨.notConnected, timer, g⟩
      ∧ Driver.waitForCall ⟨.commandError e, timer, g⟩ g
        = (.error (.command e), ⟨.notConnected, timer, g⟩)
      ∧ Driver.call ⟨.commandError e, timer, g⟩ [] g
        = (.error (.command e), ⟨.notConnected, timer, g⟩))
    ∧ (⟨.commandError e, timer, g⟩ : Driver).link.1
        = ⟨.linking .blue .eightBit none .waking, timer, g.increment⟩ := by
  refine ⟨⟨rfl, rfl, rfl⟩, ⟨rfl, rfl, rfl⟩, ⟨rfl, rfl, rfl⟩,
    ⟨?_, ?_, ?_, ?_, ?_, ?_⟩, ?_, ⟨?_, ?_, ?_⟩, rfl⟩
  · simp [Driver.linkStatus]
  · simp [Driver.p2pStatus]
  · simp [Driver.linkStatus]
  · simp [Driver.p2pStatus]
  · simp [Driver.linkStatus]
  · simp [Driver.p2pStatus]
  · intro h
    refine ⟨?_, ?_, ?_⟩
    · simp only [Driver.endSession]
      rw [if_pos h]
    · simp only [Driver.waitForCall]
      rw [if_pos h]
    · simp only [Driver.call]
      rw [if_pos h]
  · simp [Driver.endSession, Driver.endSessionState]
  · simp [Driver.waitForCall, Driver.waitForCallTransition]
  · simp [Driver.call, Driver.callTransition]

/-- Witness for C9 with distinct stale and current generations. -/
theorem c9_error_snapshot_persistence_witness :
    Driver.endSession ⟨.commandError (.reset 1), .t3, ⟨0⟩⟩ ⟨1⟩
      = ⟨.commandError (.reset 1), .t3, ⟨0⟩⟩ :=
  ((c9_error_snapshot_persistence .t3 ⟨0⟩ ⟨1⟩ ⟨0⟩ (.reset 1)
      .waitForIdle (.notIdle8 0)
      ⟨.ok none, .blue, .eightBit⟩).2.2.2.2.1 (by decide)).1
